import Mathlib

/-!
Verification development for the EcoPlan-SQL Plan Analysis Engine.

The definitions below are a shallow embedding of the TypeScript sources:
 - `ImpactTreeManager` (clamp / logNormalize / resolve / flatten),
 - `QueryImpactAnalyzer` (extractAllMetrics / getExecutionTimeAndExplain /
   buildEcoSQLTree),
 - `SuggestionGen` (templates, relevance, severity, filter, collapse, sort,
   explanation assembly).

JS `number` is modelled by `ℝ`.  String parsing (the regex-based metric
extraction) is modelled by executable scanners over `List Char` which follow
the leftmost-match / greedy-capture semantics of the concrete regexes used by
the source; parsed integers are `ℕ` and parsed decimals `ℚ`, cast into `ℝ`
at the metric record boundary.  `parseFloat` returning `NaN` (only possible
when a `[\d.]+` capture consists of dots alone) is modelled by `Option ℚ`
with `none` for `NaN` where the control flow depends on it
(`getExecutionTimeAndExplain`), and collapsed to `0` where it does not.
-/

/-! ## Character and string scanning utilities -/

/-- Characters of a string; all scanners work on `List Char`. -/
abbrev Chars := List Char

/-- Case-sensitive literal match: if `lit` is a prefix of `s`, return the rest. -/
def litPrefixAt : Chars → Chars → Option Chars
  | [], s => some s
  | _ :: _, [] => none
  | a :: la, b :: lb => if a = b then litPrefixAt la lb else none

/-- Case-insensitive (ASCII) literal match, for regexes with the `i` flag. -/
def litPrefixAtCI : Chars → Chars → Option Chars
  | [], s => some s
  | _ :: _, [] => none
  | a :: la, b :: lb => if a.toLower = b.toLower then litPrefixAtCI la lb else none

/-- Try an anchored matcher at every position, leftmost first (regex search). -/
def scanFirst (f : Chars → Option α) : Chars → Option α
  | [] => f []
  | c :: rest =>
    match f (c :: rest) with
    | some r => some r
    | none => scanFirst f rest

/-- Numeric value of a digit run (JS `parseInt` on a `(\d+)` capture). -/
def natOfDigits (l : Chars) : ℕ :=
  l.foldl (fun acc c => 10 * acc + (c.toNat - 48)) 0

/-- Character class `[\d.]` used by the float-capturing regexes. -/
def numDot (c : Char) : Bool := c.isDigit || c = '.'

/-- JS whitespace class `\s` (the characters occurring in plan texts). -/
def isWsChar (c : Char) : Bool :=
  c = ' ' || c = '\t' || c = '\n' || c = '\r' || c = '\x0b' || c = '\x0c'

/-- JS word-character class `\w`, for the `\b` boundary in `/\brows=(\d+)/`. -/
def isWordChar (c : Char) : Bool := c.isAlphanum || c = '_'

/-- JS `parseFloat` on a `[\d.]+` capture: digits, optionally a dot and more
digits (a second dot stops the parse, as in JS); `none` models `NaN`, which
arises only when the capture has no digit before the parse stops. -/
def jsParseFloat (l : Chars) : Option ℚ :=
  let intPart := l.takeWhile Char.isDigit
  let rest := l.drop intPart.length
  match rest with
  | '.' :: r =>
    let frac := r.takeWhile Char.isDigit
    if intPart.isEmpty && frac.isEmpty then none
    else some ((natOfDigits intPart : ℚ) + (natOfDigits frac : ℚ) / 10 ^ frac.length)
  | _ => if intPart.isEmpty then none else some (natOfDigits intPart)

/-- Embedding of `String.includes` (case-sensitive substring test). -/
def containsSub (plan sub : String) : Bool :=
  (scanFirst (fun s => litPrefixAt sub.toList s) plan.toList).isSome

/-- JS `toUpperCase` (ASCII, which covers the plan texts involved). -/
def strUpper (s : String) : String := String.mk (s.toList.map Char.toUpper)

/-! ## The individual regex matchers of `extractAllMetrics` -/

/-- Anchored `/Batches: (\d+)/i`: the literal (case-insensitively) followed by
at least one digit; the capture is the maximal digit run. -/
def batchesAux (s : Chars) : Option ℕ :=
  (litPrefixAtCI "Batches: ".toList s).bind fun r =>
    let ds := r.takeWhile Char.isDigit
    if ds.isEmpty then none else some (natOfDigits ds)

/-- First match of `/Batches: (\d+)/i`, parsed. -/
def batchesCap (plan : String) : Option ℕ := scanFirst batchesAux plan.toList

/-- Anchored test for `/Disk:\s*\d+/`. -/
def diskAux (s : Chars) : Option Unit :=
  (litPrefixAt "Disk:".toList s).bind fun r =>
    match r.dropWhile isWsChar with
    | c :: _ => if c.isDigit then some () else none
    | [] => none

/-- Embedding of `/Disk:\s*\d+/.test(plan)`. -/
def diskTest (plan : String) : Bool := (scanFirst diskAux plan.toList).isSome

/-- All suffixes of `run` that follow an occurrence of `".."` (any prefix,
including the empty one). Listed left to right by position. -/
def ddTailsAll : Chars → List Chars
  | [] => []
  | c :: rest =>
    (match c, rest with
     | '.', '.' :: b => [b]
     | _, _ => []) ++ ddTailsAll rest

/-- Backtracking result of matching `[\d.]+\.\.([\d.]+)` against a maximal
`[\d.]` run: the first factor is greedy, so the split is at the last `".."`
that leaves a nonempty prefix and a nonempty capture; the capture is the
whole rest of the run. -/
def intervalSplit : Chars → Option Chars
  | [] => none
  | _ :: rest => ((ddTailsAll rest).filter (fun b => !b.isEmpty)).getLast?

/-- Anchored `lit` + `[\d.]+\.\.([\d.]+)` (used with `cost=` / `actual time=`),
returning the upper-bound capture. -/
def intervalAux (lit : Chars) (s : Chars) : Option Chars :=
  (litPrefixAt lit s).bind fun r => intervalSplit (r.takeWhile numDot)

/-- First match of `/actual time=[\d.]+\.\.([\d.]+)/`, upper bound capture. -/
def actualTimeCap (plan : String) : Option Chars :=
  scanFirst (intervalAux "actual time=".toList) plan.toList

/-- First match of `/cost=[\d.]+\.\.([\d.]+)/`, upper bound capture. -/
def costCap (plan : String) : Option Chars :=
  scanFirst (intervalAux "cost=".toList) plan.toList

/-- Anchored `/Execution [Tt]ime: ([\d.]+)/`. -/
def execTimeAux (s : Chars) : Option Chars :=
  (litPrefixAt "Execution ".toList s).bind fun r =>
    match r with
    | c :: r2 =>
      if c = 'T' || c = 't' then
        (litPrefixAt "ime: ".toList r2).bind fun r3 =>
          let run := r3.takeWhile numDot
          if run.isEmpty then none else some run
      else none
    | [] => none

/-- First match of `/Execution [Tt]ime: ([\d.]+)/`. -/
def execTimeCap (plan : String) : Option Chars :=
  scanFirst execTimeAux plan.toList

/-- Anchored literal (case-insensitive) followed by a `(\d+)` capture. -/
def litNatAuxCI (lit : Chars) (s : Chars) : Option ℕ :=
  (litPrefixAtCI lit s).bind fun r =>
    let ds := r.takeWhile Char.isDigit
    if ds.isEmpty then none else some (natOfDigits ds)

/-- Anchored literal (case-sensitive) followed by a `(\d+)` capture. -/
def litNatAux (lit : Chars) (s : Chars) : Option ℕ :=
  (litPrefixAt lit s).bind fun r =>
    let ds := r.takeWhile Char.isDigit
    if ds.isEmpty then none else some (natOfDigits ds)

/-- Embedding of `/Rows Removed by Filter: (\d+)/i`, `parseInt(... || '0')`. -/
def rowsRemovedOf (plan : String) : ℕ :=
  (scanFirst (litNatAuxCI "Rows Removed by Filter: ".toList) plan.toList).getD 0

/-- Embedding of `/Workers Launched: (\d+)/i`, `parseInt(... || '0')`. -/
def workersOf (plan : String) : ℕ :=
  (scanFirst (litNatAuxCI "Workers Launched: ".toList) plan.toList).getD 0

/-- Embedding of `/Heap Fetches: (\d+)/`, `parseInt(... || '0')`. -/
def heapFetchesOf (plan : String) : ℕ :=
  (scanFirst (litNatAux "Heap Fetches: ".toList) plan.toList).getD 0

/-- Embedding of `parseInt(plan.match(/Batches: (\d+)/i)?.[1] || '1')`. -/
def batchesOf (plan : String) : ℕ := (batchesCap plan).getD 1

/-- Position-aware scan used for the word boundary `\b`. -/
def scanPrev (f : Option Char → Chars → Option α) : Option Char → Chars → Option α
  | prev, s =>
    match f prev s with
    | some v => some v
    | none =>
      match s with
      | [] => none
      | c :: rest => scanPrev f (some c) rest

/-- Embedding of `/\brows=(\d+)/` (case-sensitive): `rows=` at the start or after a
non-word character, followed by digits. `plannedRows` uses its first match. -/
def plannedRowsOf (plan : String) : ℕ :=
  (scanPrev
      (fun prev s =>
        match prev with
        | some p => if isWordChar p then none else litNatAux "rows=".toList s
        | none => litNatAux "rows=".toList s)
      none plan.toList).getD 0

/-- Anchored `/loops=(\d+)/`, returning the value and the rest after the match
(for the `g` flag, which resumes scanning after each match). -/
def loopsAux (s : Chars) : Option (ℕ × Chars) :=
  (litPrefixAt "loops=".toList s).bind fun r =>
    let ds := r.takeWhile Char.isDigit
    if ds.isEmpty then none else some (natOfDigits ds, r.drop ds.length)

/-- Collect every value of a global regex, scanning leftmost-first and
resuming after each match (fuelled; each match consumes at least one
character, so `length + 1` fuel is enough). -/
def globalAll (f : Chars → Option (ℕ × Chars)) : ℕ → Chars → List ℕ
  | 0, _ => []
  | fuel + 1, s =>
    match scanFirst f s with
    | none => []
    | some (v, rest) => v :: globalAll f fuel rest

/-- Embedding of `plan.match(/loops=(\d+)/g)`: `maxLoops` is `Math.max(...) || 1` over all
matches, and stays `1` when there is no match. -/
def maxLoopsOf (plan : String) : ℕ :=
  match globalAll loopsAux (plan.length + 1) plan.toList with
  | [] => 1
  | l =>
    let m := l.foldl max 0
    if m = 0 then 1 else m

/-- Anchored matcher for `/\(actual\s+time=[\d.]+\.\.[\d.]+\s+rows=(\d+)/i`:
`(`, `actual` (case-insensitive), whitespace, `time=`, a `[\d.]` run that
splits as `A..B` with `A`,`B` nonempty, whitespace, `rows=` and the digit
capture.  Returns the capture and the rest after the match.  (The source then
re-extracts the trailing digits of the matched string with `/(\d+)$/`, which
is the same capture.) -/
def actualRowsAux (s : Chars) : Option (ℕ × Chars) :=
  match s with
  | '(' :: r1 =>
    (litPrefixAtCI "actual".toList r1).bind fun r2 =>
      match r2 with
      | c :: _ =>
        if isWsChar c then
          (litPrefixAtCI "time=".toList (r2.dropWhile isWsChar)).bind fun r4 =>
            let run := r4.takeWhile numDot
            match intervalSplit run with
            | some _ =>
              let r5 := r4.drop run.length
              match r5 with
              | c2 :: _ =>
                if isWsChar c2 then
                  (litPrefixAtCI "rows=".toList (r5.dropWhile isWsChar)).bind fun r7 =>
                    let ds := r7.takeWhile Char.isDigit
                    if ds.isEmpty then none
                    else some (natOfDigits ds, r7.drop ds.length)
                else none
              | [] => none
            | none => none
        else none
      | [] => none
  | _ => none

/-- Last value of a global regex (fuelled as in `globalAll`). -/
def globalLast (f : Chars → Option (ℕ × Chars)) (fuel : ℕ) (s : Chars) : Option ℕ :=
  (globalAll f fuel s).getLast?

/-- Fallback `/rows=(\d+)/i` (first match). -/
def rowsFallbackOf (plan : String) : Option ℕ :=
  scanFirst (litNatAuxCI "rows=".toList) plan.toList

/-- Embedding of `actualRows`: last match of the global actual-time pattern if its value is
positive, otherwise the first `/rows=(\d+)/i` value, otherwise 0. -/
def actualRowsOf (plan : String) : ℕ :=
  match globalLast actualRowsAux (plan.length + 1) plan.toList with
  | some v => if v > 0 then v else (rowsFallbackOf plan).getD 0
  | none => (rowsFallbackOf plan).getD 0

/-- Anchored `/Planning time: ([\d.]+) ms/i`: capture must be followed by
`" ms"` (shrinking the greedy run cannot recover a failure, since the
character after a shortened run is still in `[\d.]`). -/
def planningAux (s : Chars) : Option Chars :=
  (litPrefixAtCI "Planning time: ".toList s).bind fun r =>
    let run := r.takeWhile numDot
    if run.isEmpty then none
    else (litPrefixAtCI " ms".toList (r.drop run.length)).map fun _ => run

/-- First match of `/Planning time: ([\d.]+) ms/i`. -/
def planningCap (plan : String) : Option Chars :=
  scanFirst planningAux plan.toList

/-- Suffix after the first occurrence of a literal. -/
def afterLit (lit : Chars) (s : Chars) : Option Chars :=
  scanFirst (fun t => litPrefixAt lit t) s

/-- Embedding of `/JIT:[\s\S]*?Timing:[\s\S]*?Total ([\d.]+) ms/`: modelled by successive
first-occurrence search (`JIT:`, then `Timing:`, then the first
`Total <num> ms`), which agrees with the lazy regex on plans without repeated
`JIT:`/`Timing:` blocks. -/
def jitCap (plan : String) : Option Chars :=
  (afterLit "JIT:".toList plan.toList).bind fun r1 =>
  (afterLit "Timing:".toList r1).bind fun r2 =>
  scanFirst
    (fun s =>
      (litPrefixAt "Total ".toList s).bind fun r =>
        let run := r.takeWhile numDot
        if run.isEmpty then none
        else (litPrefixAt " ms".toList (r.drop run.length)).map fun _ => run)
    r2

/-! ## RawMetrics and metric extraction (`QueryImpactAnalyzer`) -/

open Classical

/-- Embedding of `RawMetrics` (the flat record returned by `extractAllMetrics`).
The source field `wasteRatio` is called `wasteRatioVal` here. -/
structure RawMetrics where
  executionTime : ℝ
  execTimeInExplain : Bool
  planningTime : ℝ
  jitTime : ℝ
  batches : ℕ
  hasDiskSort : Bool
  tempFilesMb : ℝ
  totalBuffersRead : ℝ
  wasteRatioVal : ℝ
  isCartesian : Bool
  workers : ℕ
  recursiveDepth : ℕ
  maxLoops : ℕ
  rowsPerIteration : ℝ
  seqScanInLoop : Bool
  plannedRows : ℕ
  actualRows : ℕ
  heapFetches : ℕ
  hasJsonbParallel : Bool
  hasParallel : Bool
  isHeavySort : Bool

/-- Embedding of `getExecutionTimeAndExplain`.  The running `execTime` is `Option ℝ`
(`none` = `NaN`, which compares as neither `=== 0` nor `> 0` in JS).
Tier 1 is `parseFloatFromRegex(...) || 0`, so `NaN` collapses to `0` there;
tiers 2 and 3 use bare `parseFloat`, so `NaN` can persist.  Finally
`execTimeInExplain = execTime > 0` and a non-positive result becomes `0.01`. -/
noncomputable def getExecutionTimeAndExplain (plan : String) : ℝ × Bool :=
  let t1 : ℝ :=
    match execTimeCap plan with
    | some c => match jsParseFloat c with | some q => (q : ℝ) | none => 0
    | none => 0
  let t2 : Option ℝ :=
    if t1 = 0 then
      match actualTimeCap plan with
      | some c => (jsParseFloat c).map (fun q => (q : ℝ))
      | none => some t1
    else some t1
  let t3 : Option ℝ :=
    if t2 = some 0 then
      match costCap plan with
      | some c => (jsParseFloat c).map (fun q => (q : ℝ) / 100)
      | none => t2
    else t2
  match t3 with
  | some q => if 0 < q then (q, true) else (0.01, false)
  | none => (0.01, false)

/-- Embedding of `extractAllMetrics`.  `tempFilesMb` and `totalBuffersRead` are the
source's literal `0` placeholders ("Agrega aquí tu lógica").  The `NaN` of
`parseFloat` on a dots-only capture is collapsed to `0` for `planningTime`
and `jitTime` (no claim depends on `NaN` propagation there). -/
noncomputable def extractAllMetrics (plan : String) : RawMetrics :=
  let planUpper := strUpper plan
  let actualRows := actualRowsOf plan
  let maxLoops := maxLoopsOf plan
  let rowsRemoved := rowsRemovedOf plan
  let totalRowsRead := rowsRemoved + actualRows
  let execInfo := getExecutionTimeAndExplain plan
  let plannedRows := plannedRowsOf plan
  let batches := batchesOf plan
  let hasDiskSort := batches > 1 || diskTest plan || containsSub plan "External sort"
  let jitTime : ℝ := match jitCap plan with
    | some c => ((jsParseFloat c).getD 0 : ℚ)
    | none => 0
  { executionTime := execInfo.1
    execTimeInExplain := execInfo.2
    planningTime := match planningCap plan with
      | some c => ((jsParseFloat c).getD 0 : ℚ)
      | none => 0
    jitTime := jitTime
    hasJsonbParallel := containsSub plan "Parallel Seq Scan" &&
      (containsSub plan "->>" || containsSub plan "->")
    batches := batches
    hasDiskSort := hasDiskSort
    tempFilesMb := 0
    totalBuffersRead := 0
    wasteRatioVal :=
      if 0 < totalRowsRead then
        ((rowsRemoved : ℝ) / (totalRowsRead : ℝ)) *
          min 1 (Real.logb 10 (totalRowsRead : ℝ) / 5)
      else 0
    isCartesian := containsSub planUpper "JOIN FILTER" ||
      (containsSub planUpper "NESTED LOOP" && maxLoops > 100)
    workers := workersOf plan
    recursiveDepth := if containsSub planUpper "RECURSIVE UNION" then 10 else 0
    maxLoops := maxLoops
    rowsPerIteration := (actualRows : ℝ) / (maxLoops : ℝ)
    seqScanInLoop := containsSub planUpper "SEQ SCAN" &&
      containsSub planUpper "RECURSIVE UNION"
    actualRows := actualRows
    plannedRows := plannedRows
    heapFetches := heapFetchesOf plan
    hasParallel := containsSub plan "Parallel"
    isHeavySort := containsSub plan "Sort Method" && totalRowsRead > 10000 }

/-! ## ImpactNode and the tree resolver (`ImpactTreeManager`) -/

/-- Embedding of `ImpactNode`.  The optional `children` array is a `List` (`[]` = absent:
the source treats both the same way). -/
inductive ImpactNode where
  | mk (id label : String) (value weight : ℝ) (children : List ImpactNode)
      (isCritical : Bool) (description : String)

/-- Node id. -/
def ImpactNode.id : ImpactNode → String
  | ⟨i, _, _, _, _, _, _⟩ => i

/-- Node display label. -/
def ImpactNode.label : ImpactNode → String
  | ⟨_, l, _, _, _, _, _⟩ => l

/-- Node value. -/
def ImpactNode.value : ImpactNode → ℝ
  | ⟨_, _, v, _, _, _, _⟩ => v

/-- Node weight. -/
def ImpactNode.weight : ImpactNode → ℝ
  | ⟨_, _, _, w, _, _, _⟩ => w

/-- Node children. -/
def ImpactNode.children : ImpactNode → List ImpactNode
  | ⟨_, _, _, _, cs, _, _⟩ => cs

/-- Embedding of `clamp` of `ImpactTreeManager`. -/
noncomputable def clamp (v : ℝ) : ℝ := max 0 (min 1 v)

/-- Embedding of `logNormalize`.  `Math.log2(actual)/Math.log2(critical)`: when
`critical = 1` the JS quotient is `+∞` (positive numerator since
`actual > 1`) and the clamp yields `1`; division by zero in `ℝ` is `0`, so
that case is inlined.  For `critical ≤ 0` JS produces `NaN`; the function is
only used (and only reasoned about) with `critical > 0`. -/
noncomputable def logNormalize (actual critical : ℝ) : ℝ :=
  if actual ≤ 1 then 0
  else if critical = 1 then 1
  else clamp (Real.logb 2 actual / Real.logb 2 critical)

/-- Effective sibling weight: the source reads `child.weight || 1`, so a `0`
(falsy) weight is replaced by `1`. -/
noncomputable def effWeight (n : ImpactNode) : ℝ :=
  if n.weight = 0 then 1 else n.weight

/-- Embedding of `Σ childValue·weight` of the resolver loop (over already-resolved
children; `resolve` never changes a weight). -/
noncomputable def weightedSum (cs : List ImpactNode) : ℝ :=
  (cs.map fun c => c.value * effWeight c).sum

/-- Embedding of `Σ weight` of the resolver loop. -/
noncomputable def totalWeight (cs : List ImpactNode) : ℝ :=
  (cs.map effWeight).sum

/-- Embedding of `avgValue = totalWeight > 0 ? weightedSum / totalWeight : 0`. -/
noncomputable def avgOf (cs : List ImpactNode) : ℝ :=
  if 0 < totalWeight cs then weightedSum cs / totalWeight cs else 0

mutual
/-- Embedding of `ImpactTreeManager.resolve` as a tree transformer: the returned tree
carries the values stored by the in-place mutation, and the value returned
by the source is the root's stored value (`ImpactNode.value` of the result;
for a leaf the stored value is the unchanged leaf value, which is what the
source returns). -/
noncomputable def resolveT : ImpactNode → ImpactNode
  | .mk i l v w cs crit desc =>
    match cs with
    | [] => .mk i l v w cs crit desc
    | c :: rest =>
      let cs' := resolveList (c :: rest)
      let avgValue := avgOf cs'
      let v1 :=
        if (i = "scalability" ∨ i = "query_impact") ∧ 0.85 ≤ avgValue then
          min 1 (avgValue * 1.1)
        else avgValue
      .mk i l (min 1 v1) w cs' crit desc

/-- Embedding of `children.map(child => this.resolve(child))`. -/
noncomputable def resolveList : List ImpactNode → List ImpactNode
  | [] => []
  | n :: t => resolveT n :: resolveList t
end

/-- The value `resolve` returns (and stores). -/
noncomputable def resolveVal (n : ImpactNode) : ℝ := (resolveT n).value

mutual
/-- Embedding of `ImpactTreeManager.flatten` (pre-order listing of all nodes). -/
def flattenT : ImpactNode → List ImpactNode
  | .mk i l v w cs crit desc => .mk i l v w cs crit desc :: flattenList cs

/-- Flatten of a child list. -/
def flattenList : List ImpactNode → List ImpactNode
  | [] => []
  | n :: t => flattenT n ++ flattenList t
end

mutual
/-- Embedding of `SuggestionGen.findNodeRecursive` (depth-first search by id). -/
def findNodeRecursive : ImpactNode → String → Option ImpactNode
  | .mk i l v w cs crit desc, targetId =>
    if i = targetId then some (.mk i l v w cs crit desc)
    else findNodeRecursiveList cs targetId

/-- DFS over a child list. -/
def findNodeRecursiveList : List ImpactNode → String → Option ImpactNode
  | [], _ => none
  | c :: t, targetId =>
    match findNodeRecursive c targetId with
    | some found => some found
    | none => findNodeRecursiveList t targetId
end

mutual
/-- The `search` closure of `SuggestionGen.findNodeByTrigger` (first node,
in pre-order, satisfying the predicate). -/
def searchNode (p : ImpactNode → Bool) : ImpactNode → Option ImpactNode
  | .mk i l v w cs crit desc =>
    if p (.mk i l v w cs crit desc) then some (.mk i l v w cs crit desc)
    else searchNodeList p cs

/-- Embedding of `search` over a child list. -/
def searchNodeList (p : ImpactNode → Bool) : List ImpactNode → Option ImpactNode
  | [] => none
  | c :: t =>
    match searchNode p c with
    | some found => some found
    | none => searchNodeList p t
end

/-- Embedding of `SuggestionGen.validateAndNormalizeImpactValue`:
`null` for values outside the lenient `[0, 1.5]` band. -/
noncomputable def validValue (n : ImpactNode) : Option ℝ :=
  if n.value < 0 ∨ n.value > 1.5 then none else some n.value

mutual
/-- Embedding of `SuggestionGen.calculateTotalImpact` (sum of all in-band node values). -/
noncomputable def calculateTotalImpact : ImpactNode → ℝ
  | .mk i l v w cs crit desc =>
    (match validValue (.mk i l v w cs crit desc) with
     | some x => x
     | none => 0) + calculateTotalImpactList cs

/-- Total impact of a child list. -/
noncomputable def calculateTotalImpactList : List ImpactNode → ℝ
  | [] => 0
  | c :: t => calculateTotalImpact c + calculateTotalImpactList t
end

/-! ## `buildEcoSQLTree` -/

/-- Embedding of `StructuralFlags` (the optional booleans default to `false`, which is how
the source's `undefined` behaves in every test it performs). -/
structure StructuralFlags where
  hasNestedLoop : Bool := false
  hasCartesianProduct : Bool := false
  hasSeqScanInLoop : Bool := false
  hasJoin : Bool := false
  hasRecursiveCTE : Bool := false
  hasForcedMaterialization : Bool := false
  hasRowEstimateDrift : Bool := false
  hasLateFiltering : Bool := false
  hasExternalSortOrHash : Bool := false
  hasWorkerStarvation : Bool := false

/-- Embedding of `buildEcoSQLTree`: the fixed three-branch tree, leaves populated from the
metrics and flags, then resolved in place (`manager.resolve(root)`); the
mutated root is returned. -/
noncomputable def buildEcoSQLTree (m : RawMetrics) (flags : StructuralFlags) : ImpactNode :=
  resolveT
    (.mk "query_impact" "Total Query Impact" 0 1.0
      [ .mk "perf" "Performance Impact" 0 0.5
          [ .mk "cpu" "CPU Pressure" (logNormalize m.executionTime 5000) 0.4 [] false "...",
            .mk "mem" "Memory Pressure"
              (if m.hasDiskSort then 1 else logNormalize (m.batches : ℝ) 128) 0.3 []
              m.hasDiskSort "...",
            .mk "io" "I/O Pressure"
              (logNormalize (m.totalBuffersRead + (m.heapFetches : ℝ) * 5) 100000) 0.3 [] false
              "Volumen de datos leídos y saltos al Heap (Visibilidad/Index no cubierto)." ]
          false "Saturación de recursos físicos.",
        .mk "scalability" "Scalability Risk" 0 0.25
          [ .mk "recursive_expansion" "Recursive Expansion"
              (if m.recursiveDepth > 0 then
                min
                  (logNormalize m.rowsPerIteration 10000 *
                      (if m.seqScanInLoop then 1.5 else 0.5) +
                    (m.recursiveDepth : ℝ) * 0.1)
                  1.0
               else 0)
              0.3 [] (decide (m.recursiveDepth > 10)) "Crecimiento en CTEs recursivas.",
            .mk "complexity" "Structural Complexity"
              (max (if m.isHeavySort then 0.7 else 0)
                (max (logNormalize (m.maxLoops : ℝ) 10000)
                  (if m.jitTime > 0 ∧ m.jitTime > m.executionTime * 0.15 then 0.85 else 0)))
              0.25 [] m.isCartesian "Complejidad algorítmica.",
            .mk "waste" "Data Waste"
              (if m.executionTime < 100 ∧ ¬flags.hasNestedLoop then
                 m.wasteRatioVal * 0.1
               else if flags.hasNestedLoop ∨ flags.hasJoin then m.wasteRatioVal
               else if flags.hasWorkerStarvation then 1.0
               else m.wasteRatioVal * (if m.hasParallel then 1.5 else 1.0))
              0.2 [] false "Eficiencia de filtrado.",
            .mk "parallel" "Resource Contention"
              (if flags.hasWorkerStarvation then 1.0
               else if m.hasJsonbParallel then 0.9 else 0)
              0.25 [] flags.hasWorkerStarvation
              "Fallo en la asignación de workers paralelos." ]
          m.isHeavySort "Complejidad algorítmica y densidad de ordenamiento.",
        .mk "eco" "Eco Impact" 0 0.15
          [ .mk "carbon" "Carbon Footprint"
              (min ((m.totalBuffersRead / 125000) * 0.6 + (m.executionTime / 5000) * 0.4) 1.0)
              1.0 [] false "" ]
          false "Huella de carbono." ]
      false "Impacto global...")

/-! ## Suggestion engine (`SuggestionGen`) -/

/-- Severity levels. -/
inductive Severity where
  | info | low | medium | high | critical
deriving DecidableEq, Repr

/-- Rule kinds. -/
inductive SuggestionKind where
  | corrective | opportunistic | preventive | optimization
deriving DecidableEq, Repr

/-- A static rule (`Template`). -/
structure Template where
  id : String
  solution : String
  kind : SuggestionKind
  text : String
  triggerNodeId : Option String

/-- The `triggeringNode` payload of an evaluated suggestion. -/
structure TriggeringNode where
  id : String
  value : ℝ

/-- Embedding of `EvaluatedSuggestion` (the field `type` carries the template id). -/
structure EvaluatedSuggestion where
  type : String
  label : String
  solution : String
  kind : SuggestionKind
  severity : Severity
  score : ℝ
  triggeringNode : TriggeringNode
  metrics : RawMetrics

/-- Embedding of `ExplanationContext`. -/
structure ExplanationContext where
  impactTree : ImpactNode
  impactSaturation : ℝ
  dominantNodes : List ImpactNode
  rawMetrics : RawMetrics
  plan : String

/-- The eleven templates of `getTemplates`, in source order. -/
def tmplRecursiveBomb : Template :=
  ⟨"RECURSIVE_BOMB", "Añadir índice en columna de unión o LIMIT.", .corrective,
   "Bomba Recursiva Detectada", some "recursive_expansion"⟩

/-- Embedding of `POOR_FILTERING` template. -/
def tmplPoorFiltering : Template :=
  ⟨"POOR_FILTERING",
   "La consulta lee un volumen excesivo de datos para las filas que retorna. Verifica que las columnas del WHERE tengan índices apropiados y que sean SARGable (evita funciones sobre columnas indexadas).",
   .optimization, "Filtrado Ineficiente (Data Waste)", some "waste"⟩

/-- Embedding of `N_PLUS_ONE` template. -/
def tmplNPlusOne : Template :=
  ⟨"N_PLUS_ONE", "Reemplazar bucles por JOINs explícitos o usar LATERAL.", .corrective,
   "Patrón N+1 (Loops Excesivos)", some "cpu"⟩

/-- Embedding of `HIGH_CPU_PRESSURE` template. -/
def tmplHighCpu : Template :=
  ⟨"HIGH_CPU_PRESSURE", "Optimizar operaciones de Hash/Sort o reducir el conjunto de datos.",
   .corrective, "Saturación de CPU (CPU Bound)", some "cpu"⟩

/-- Embedding of `INEFFICIENT_INDEX` template. -/
def tmplInefficientIndex : Template :=
  ⟨"INEFFICIENT_INDEX", "Ampliar índice para incluir columnas filtradas (Covering Index).",
   .optimization, "Índice Incompleto (Heap Fetches altos)", some "io"⟩

/-- Embedding of `INEFFICIENT_JOIN` template. -/
def tmplInefficientJoin : Template :=
  ⟨"INEFFICIENT_JOIN",
   "El índice localiza las filas, pero obliga al motor a ir al disco (Heap) masivamente para filtrar columnas faltantes.",
   .optimization, "Índice Incompleto (Heap Fetches altos)", some "io"⟩

/-- Embedding of `DISK_SORT` template. -/
def tmplDiskSort : Template :=
  ⟨"DISK_SORT", "Incrementar work_mem o eliminar ORDER BY innecesarios.", .corrective,
   "Ordenamiento en Disco (Swap)", some "mem"⟩

/-- Embedding of `CARTESIAN_PRODUCT` template. -/
def tmplCartesian : Template :=
  ⟨"CARTESIAN_PRODUCT", "Revisar condiciones de JOIN faltantes.", .corrective,
   "Producto Cartesiano", some "complexity"⟩

/-- Embedding of `HIGH_WASTE_SCAN` template. -/
def tmplHighWaste : Template :=
  ⟨"HIGH_WASTE_SCAN", "Crear índice compuesto que cubra los filtros.", .optimization,
   "Filtrado Ineficiente (High Waste)", some "waste"⟩

/-- Embedding of `HIGH_STRUCTURAL_COMPLEXITY` template. -/
def tmplHighComplexity : Template :=
  ⟨"HIGH_STRUCTURAL_COMPLEXITY",
   "Usar CTEs (WITH) para aplanar la consulta o reducir anidamiento.", .optimization,
   "Alta Complejidad Estructural", some "complexity"⟩

/-- Embedding of `MISSING_INDEX` template. -/
def tmplMissingIndex : Template :=
  ⟨"MISSING_INDEX",
   "Se detectó un escaneo secuencial masivo que descarta la mayoría de los datos.",
   .optimization, "Falta de Índice", some "waste"⟩

/-- Embedding of `getTemplates`, in source order. -/
def getTemplates : List Template :=
  [tmplRecursiveBomb, tmplPoorFiltering, tmplNPlusOne, tmplHighCpu,
   tmplInefficientIndex, tmplInefficientJoin, tmplDiskSort, tmplCartesian,
   tmplHighWaste, tmplHighComplexity, tmplMissingIndex]

/-- Embedding of `SuggestionGen.findNodeByTrigger`: maps a trigger hint to a label-substring
search over the tree; hints other than the four listed (e.g. `cpu`, `io`)
fall through to `undefined`. -/
def findNodeByTrigger (triggerHint : String) (root : ImpactNode) (planRaw : String) :
    Option ImpactNode :=
  if triggerHint = "recursive_expansion" then
    searchNode (fun n => containsSub n.label "Recursive Union" || containsSub n.label "CTE") root
  else if triggerHint = "mem" then
    searchNode (fun n => containsSub n.label "Sort" || containsSub n.label "Hash") root
  else if triggerHint = "complexity" then
    searchNode (fun n => containsSub n.label "Nested Loop" || containsSub n.label "Cross Join") root
  else if triggerHint = "waste" then
    searchNode (fun n => containsSub n.label "Seq Scan" || containsSub n.label "Filter") root
  else none

/-- Embedding of `SuggestionGen.isNPlusOnePattern`. -/
def isNPlusOnePattern (node : ImpactNode) (m : RawMetrics) (plan : String) : Prop :=
  let loops := if m.maxLoops = 0 then 1 else m.maxLoops
  let rows := m.actualRows
  if loops < 50 then False
  else ((rows : ℝ) / (loops : ℝ) ≤ 2) ∧ containsSub plan "Scan" = true

/-- Embedding of `SuggestionGen.isTemplateRelevant`.  `INEFFICIENT_JOIN` tests
`flags.isIndexScan`/`heavyHeapUsage`/`heavyFiltering`, none of which exist on
`StructuralFlags`; at runtime those reads are `undefined`, so the conjunction
is falsy and the template is never relevant. -/
def isTemplateRelevant (t : Template) (ctx : ExplanationContext)
    (flags : StructuralFlags) (plan : String) : Prop :=
  let m := ctx.rawMetrics
  if t.id = "INEFFICIENT_JOIN" then False
  else if t.id = "RECURSIVE_BOMB" then
    m.recursiveDepth > 0 ∧ (m.seqScanInLoop = true ∨ m.maxLoops > 1000)
  else if t.id = "MISSING_INDEX" then
    match ctx.dominantNodes.find? (fun n => n.id = "waste") with
    | some w => w.value > 0.7
    | none => False
  else if t.id = "N_PLUS_ONE" then isNPlusOnePattern ctx.impactTree m plan
  else if t.id = "POOR_FILTERING" then
    let waste := ctx.dominantNodes.find? (fun n => n.id = "waste")
    let isSeqScan := containsSub plan "Seq Scan" || containsSub plan "Parallel Seq Scan"
    match waste with
    | some w => if w.value > 0.8 ∧ isSeqScan = true then False else w.value ≥ 0.4
    | none => False
  else if t.id = "DISK_SORT" then m.hasDiskSort = true ∨ m.tempFilesMb > 0
  else if t.id = "CARTESIAN_PRODUCT" then m.isCartesian = true
  else if t.id = "HIGH_WASTE_SCAN" then
    if m.wasteRatioVal > 0.9 then True
    else m.wasteRatioVal > 0.8 ∧ m.actualRows > 1000
  else False

/-- Baseline severity by rule kind (the `let severity = 'low'` default is
overwritten in every one of the four switch cases). -/
def sevBase : SuggestionKind → Severity
  | .corrective => .high
  | .preventive => .medium
  | .optimization => .medium
  | .opportunistic => .info

/-- Embedding of `SuggestionGen.evaluateSeverity`.  `m.rowsRemovedByFilter` does not exist
on `RawMetrics`; at runtime it reads `undefined`, so `(x || 0) = 0` and every
comparison against it is false.  This collapses the waste-ratio guards of
`INEFFICIENT_INDEX`/`INEFFICIENT_JOIN` and makes `MISSING_INDEX` always take
its early `return 'medium'` (thereby also skipping the saturation booster). -/
noncomputable def evaluateSeverity (t : Template) (ctx : ExplanationContext) : Severity :=
  let m := ctx.rawMetrics
  if t.id = "MISSING_INDEX" then .medium
  else
    let s1 :=
      if t.id = "INEFFICIENT_INDEX" then
        if m.heapFetches > 50000 then .critical
        else if m.heapFetches > 5000 then .high
        else sevBase t.kind
      else if t.id = "INEFFICIENT_JOIN" then
        if m.heapFetches > 20000 then .critical
        else if m.heapFetches > 1000 then .high
        else .medium
      else if t.id = "N_PLUS_ONE" then
        if m.maxLoops < 10000 then .critical else sevBase t.kind
      else if t.id = "DISK_SORT" then
        if m.tempFilesMb > 50 then .critical
        else if m.tempFilesMb > 10 then .high
        else .medium
      else if t.id = "RECURSIVE_BOMB" then
        if m.recursiveDepth > 20000 then .critical
        else if m.recursiveDepth > 1000 then .high
        else sevBase t.kind
      else if t.id = "CARTESIAN_PRODUCT" then
        if m.actualRows < 100 then .medium else .critical
      else sevBase t.kind
    if ctx.impactSaturation > 0.8 ∧ s1 = .medium then .high else s1

/-- Severity weights of `sortSuggestionsBySeverity`. -/
def sevWeight : Severity → ℕ
  | .critical => 5
  | .high => 4
  | .medium => 3
  | .low => 2
  | .info => 1

/-- Comparator order of `sortSuggestionsBySeverity`: higher severity weight
first, ties broken by higher score. -/
def sugLE (a b : EvaluatedSuggestion) : Prop :=
  sevWeight b.severity < sevWeight a.severity ∨
    (sevWeight b.severity = sevWeight a.severity ∧ b.score ≤ a.score)

/-- Embedding of `sortSuggestionsBySeverity`, modelled as a stable sort under the
comparator order; only the permutation property is used in the proofs. -/
noncomputable def sortSuggestionsBySeverity (l : List EvaluatedSuggestion) :
    List EvaluatedSuggestion :=
  List.insertionSort sugLE l

/-- The suggestion built for one relevant template inside the
`evaluateTemplates` loop (`score = triggeringNodeData.value || 0`, which
equals the value itself since `0 || 0 = 0`). -/
noncomputable def mkSuggestion (ctx : ExplanationContext) (plan : String) (t : Template) :
    EvaluatedSuggestion :=
  let specificNode :=
    match t.triggerNodeId with
    | some h => findNodeByTrigger h ctx.impactTree plan
    | none => none
  let triggeringNodeRaw :=
    match specificNode with
    | some n => some n
    | none => ctx.dominantNodes.head?
  let tnd : TriggeringNode :=
    match triggeringNodeRaw with
    | some n => ⟨n.id, n.value⟩
    | none => ⟨"unknown", 0⟩
  { type := t.id, label := t.text, solution := t.solution, kind := t.kind,
    severity := evaluateSeverity t ctx, score := tnd.value,
    triggeringNode := tnd, metrics := ctx.rawMetrics }

/-- Embedding of `SuggestionGen.evaluateTemplates`: one suggestion per relevant template
(in template order), then sorted by severity. -/
noncomputable def evaluateTemplates (ctx : ExplanationContext)
    (flags : StructuralFlags) (plan : String) : List EvaluatedSuggestion :=
  sortSuggestionsBySeverity
    (getTemplates.filterMap fun t =>
      if isTemplateRelevant t ctx flags plan then some (mkSuggestion ctx plan t) else none)

/-- Embedding of `SuggestionGen.filterByKind`: under saturation > 0.7, drop `info`
severities and `opportunistic` kinds. -/
noncomputable def filterByKind (suggestions : List EvaluatedSuggestion)
    (saturation : ℝ) : List EvaluatedSuggestion :=
  if saturation > 0.7 then
    suggestions.filter fun s =>
      decide (s.severity ≠ .info) && decide (s.kind ≠ .opportunistic)
  else suggestions

/-! ## Collapse phase: the JS `Map` keyed by template id -/

/-- A JS `Map<string, EvaluatedSuggestion>`: an insertion-ordered association
list with unique keys. -/
abbrev SugMap := List (String × EvaluatedSuggestion)

/-- Embedding of `map.has(k)`. -/
def mapHas (m : SugMap) (k : String) : Bool := m.any fun p => p.1 = k

/-- Embedding of `map.get(k)`. -/
def mapGet (m : SugMap) (k : String) : Option EvaluatedSuggestion :=
  (m.find? fun p => p.1 = k).map Prod.snd

/-- Embedding of `map.set(k, v)`: replace in place if the key exists (keeping its
position), otherwise append (JS Map preserves insertion order). -/
def mapSet (m : SugMap) (k : String) (v : EvaluatedSuggestion) : SugMap :=
  match m with
  | [] => [(k, v)]
  | (k', v') :: t => if k' = k then (k, v) :: t else (k', v') :: mapSet t k v

/-- One `forEach` step of `collapseSuggestions`: first occurrence of a type
wins unless a later one has a strictly greater score. -/
noncomputable def collapseStep (m : SugMap) (s : EvaluatedSuggestion) : SugMap :=
  if mapHas m s.type then
    match mapGet m s.type with
    | some existing => if existing.score < s.score then mapSet m s.type s else m
    | none => m
  else mapSet m s.type s

/-- Embedding of `SuggestionGen.collapseSuggestions`: `Array.from(map.values())` after the
fold. -/
noncomputable def collapseSuggestions (suggestions : List EvaluatedSuggestion) :
    List EvaluatedSuggestion :=
  (suggestions.foldl collapseStep []).map Prod.snd

/-! ## Explanation phase -/

/-- A `SuggestionExplainer` strategy (evidence lines + narrative). -/
structure Explainer where
  extractEvidence : String → RawMetrics → List String
  buildExplanation : EvaluatedSuggestion → Option ImpactNode → ExplanationContext → String

/-- The `EXPLAINERS` registry shape: template id to explainer;
`EXPLAINERS[s.type] || new GenericExplainer()` is modelled by the `Option`. -/
abbrev ExplainerReg := String → Option Explainer

/-- Embedding of `GenericExplainer`. -/
def genericExplainer : Explainer where
  extractEvidence := fun _ _ => []
  buildExplanation := fun s _ _ =>
    "### Análisis\nSe detectó: **" ++ s.label ++ "**.\n\nSugerencia: " ++ s.solution

/-- Embedding of `Math.round` (half away from zero on the `.5` boundary, as for the
non-negative arguments that occur here). -/
noncomputable def jsRound (x : ℝ) : ℤ := ⌊x + 1 / 2⌋

/-- Embedding of `impactSummary` payload. -/
structure ImpactSummary where
  node : String
  value : ℝ
  contribution : ℤ

/-- Embedding of `ExplainedSuggestion` (spread of the evaluated suggestion plus the
generated content). -/
structure ExplainedSuggestion extends EvaluatedSuggestion where
  title : String
  markdown : String
  evidence : List String
  impactSummary : ImpactSummary

/-- Embedding of `SuggestionGen.buildExplanations`, with the explainer registry as a
parameter (the source's module-level `EXPLAINERS` constant holds strategy
objects; nothing in the claims depends on their narrative text). -/
noncomputable def buildExplanations (E : ExplainerReg)
    (suggestions : List EvaluatedSuggestion) (ctx : ExplanationContext) :
    List ExplainedSuggestion :=
  let totalTreeImpact := calculateTotalImpact ctx.impactTree
  suggestions.map fun s =>
    let node := findNodeRecursive ctx.impactTree s.triggeringNode.id
    let explainer := (E s.type).getD genericExplainer
    let explanation := explainer.buildExplanation s node ctx
    let evidence := explainer.extractEvidence ctx.plan ctx.rawMetrics
    let nodeVal := match node with | some n => n.value | none => 0
    let contribution :=
      if 0 < totalTreeImpact then jsRound (nodeVal / totalTreeImpact * 100) else 0
    { toEvaluatedSuggestion := s, title := s.label, markdown := explanation,
      evidence := evidence,
      impactSummary := ⟨s.triggeringNode.id, nodeVal, contribution⟩ }

/-- Embedding of `SuggestionGen.generateSmartSuggestions`: evaluate, filter, collapse,
explain, with the early returns on empty lists. -/
noncomputable def generateSmartSuggestions (E : ExplainerReg)
    (ctx : ExplanationContext) (flags : StructuralFlags) (plan : String) :
    List ExplainedSuggestion :=
  let evaluated := evaluateTemplates ctx flags plan
  if evaluated.isEmpty then []
  else
    let filtered := filterByKind evaluated ctx.impactSaturation
    if filtered.isEmpty then []
    else buildExplanations E (collapseSuggestions filtered) ctx

/-! ## Exception semantics of the explanation phase

TypeScript explainer calls can throw.  `buildExplanations` runs them inside
`Array.map` with no `try`/`catch`, so a throw aborts the whole map and
propagates out of `generateSmartSuggestions`.  To reason about the spec's
hypothetical of a throwing explainer, the same map is stated with fallible
explainers (`Except`): an `Except.error` is a thrown exception. -/

/-- A fallible explainer (either operation may throw). -/
structure ExplainerF where
  extractEvidence : String → RawMetrics → Except String (List String)
  buildExplanation : EvaluatedSuggestion → Option ImpactNode → ExplanationContext →
    Except String String

/-- A fallible explainer that never throws, from a total one. -/
def liftExplainer (e : Explainer) : ExplainerF where
  extractEvidence := fun p m => .ok (e.extractEvidence p m)
  buildExplanation := fun s n c => .ok (e.buildExplanation s n c)

/-- Embedding of `buildExplanations` with the TS exception semantics made explicit: the
suggestions are mapped in order and the first explainer throw aborts the
whole phase (there is no `try`/`catch` in the source). -/
noncomputable def buildExplanationsFallible (E : String → Option ExplainerF)
    (suggestions : List EvaluatedSuggestion) (ctx : ExplanationContext) :
    Except String (List ExplainedSuggestion) :=
  let totalTreeImpact := calculateTotalImpact ctx.impactTree
  suggestions.mapM fun s => do
    let node := findNodeRecursive ctx.impactTree s.triggeringNode.id
    let explainer := (E s.type).getD (liftExplainer genericExplainer)
    let explanation ← explainer.buildExplanation s node ctx
    let evidence ← explainer.extractEvidence ctx.plan ctx.rawMetrics
    let nodeVal := match node with | some n => n.value | none => 0
    let contribution :=
      if 0 < totalTreeImpact then jsRound (nodeVal / totalTreeImpact * 100) else 0
    pure { toEvaluatedSuggestion := s, title := s.label, markdown := explanation,
           evidence := evidence,
           impactSummary := ⟨s.triggeringNode.id, nodeVal, contribution⟩ }

/-- Embedding of `generateSmartSuggestions` with the exception semantics of the
explanation phase made explicit. -/
noncomputable def generateSmartSuggestionsFallible (E : String → Option ExplainerF)
    (ctx : ExplanationContext) (flags : StructuralFlags) (plan : String) :
    Except String (List ExplainedSuggestion) :=
  let evaluated := evaluateTemplates ctx flags plan
  if evaluated.isEmpty then .ok []
  else
    let filtered := filterByKind evaluated ctx.impactSaturation
    if filtered.isEmpty then .ok []
    else buildExplanationsFallible E (collapseSuggestions filtered) ctx

/-! ## Concrete inputs used by the theorems -/

/-- An all-zero metric record (for concrete suggestion values). -/
noncomputable def zeroMetrics : RawMetrics :=
  { executionTime := 0, execTimeInExplain := false, planningTime := 0, jitTime := 0,
    batches := 0, hasDiskSort := false, tempFilesMb := 0, totalBuffersRead := 0,
    wasteRatioVal := 0, isCartesian := false, workers := 0, recursiveDepth := 0,
    maxLoops := 0, rowsPerIteration := 0, seqScanInLoop := false, plannedRows := 0,
    actualRows := 0, heapFetches := 0, hasJsonbParallel := false, hasParallel := false,
    isHeavySort := false }

/-- A leaf node. -/
noncomputable def leafNode (i : String) (v w : ℝ) : ImpactNode := .mk i i v w [] false ""

/-- Node with children of values 0.2 / 0.8 and weights 1 / 1 (the spec's
weighted-average example). -/
noncomputable def c1HalfNode : ImpactNode :=
  .mk "n" "n" 0 1 [leafNode "a" 0.2 1, leafNode "b" 0.8 1] false ""

/-- Node with children of values 0.2 / 0.8 whose weights are all zero. -/
noncomputable def c1ZeroWeightNode : ImpactNode :=
  .mk "z" "z" 0 1 [leafNode "a" 0.2 0, leafNode "b" 0.8 0] false ""

/-- Node with children of values 0.4 / 0.6 whose weights are all zero. -/
noncomputable def c1AvgNode : ImpactNode :=
  .mk "w" "w" 0 1 [leafNode "a" 0.4 0, leafNode "b" 0.6 0] false ""

/-- A `scalability` node whose children average 0.9 (dominance threshold
crossed). -/
noncomputable def c2DemoNode : ImpactNode :=
  .mk "scalability" "Scalability Risk" 0 0.25
    [leafNode "a" 0.9 1, leafNode "b" 0.9 1] false ""

/-- Plan text of the disk-sort scenario. -/
def planC4 : String := "Sort Method: external merge Disk: 54240kB Batches: 256"

/-- A plan with a planner cost figure but no execution time and no actual-time
interval. -/
def planC5 : String := "Seq Scan on users  (cost=0.00..431.00 rows=21 width=4)"

/-- A plan with no execution time, no actual-time interval and no cost figure. -/
def planC5b : String := "Result"

/-- Suggestion of type `T` with score 0.3. -/
noncomputable def c7sugA : EvaluatedSuggestion :=
  { type := "T", label := "a", solution := "sa", kind := .corrective,
    severity := .high, score := 0.3, triggeringNode := ⟨"na", 0.3⟩,
    metrics := zeroMetrics }

/-- Suggestion of type `T` with score 0.7. -/
noncomputable def c7sugB : EvaluatedSuggestion :=
  { type := "T", label := "b", solution := "sb", kind := .corrective,
    severity := .high, score := 0.7, triggeringNode := ⟨"nb", 0.7⟩,
    metrics := zeroMetrics }

/-- Metrics that make exactly `DISK_SORT` and `CARTESIAN_PRODUCT` relevant. -/
noncomputable def c8metrics : RawMetrics :=
  { zeroMetrics with hasDiskSort := true, isCartesian := true }

/-- Context for the throwing-explainer scenario. -/
noncomputable def c8ctx : ExplanationContext :=
  { impactTree := leafNode "t" 0 1, impactSaturation := 0, dominantNodes := [],
    rawMetrics := c8metrics, plan := "p" }

/-- A registry whose `DISK_SORT` explainer throws. -/
noncomputable def c8registry : String → Option ExplainerF := fun i =>
  if i = "DISK_SORT" then
    some { extractEvidence := fun _ _ => .error "boom",
           buildExplanation := fun _ _ _ => .error "boom" }
  else none

/-- Metrics that make exactly `CARTESIAN_PRODUCT` relevant. -/
noncomputable def c10metrics : RawMetrics := { zeroMetrics with isCartesian := true }

/-- Context over the built tree with an empty dominant-node list. -/
noncomputable def c10ctx : ExplanationContext :=
  { impactTree := buildEcoSQLTree c10metrics {}, impactSaturation := 0,
    dominantNodes := [], rawMetrics := c10metrics, plan := "p" }

/-- The per-key outcome of the collapse fold: first occurrence wins unless a
later one has a strictly greater score. -/
noncomputable def bestFold : Option EvaluatedSuggestion → List EvaluatedSuggestion →
    Option EvaluatedSuggestion
  | acc, [] => acc
  | acc, s :: r =>
    bestFold
      (match acc with
       | none => some s
       | some e => if e.score < s.score then some s else some e) r

/-! ## Basic tree lemmas -/

/-- Strong induction over the nested tree. -/
theorem ImpactNode.strongInd {P : ImpactNode → Prop}
    (h : ∀ i l v w cs crit desc, (∀ c ∈ cs, P c) → P (.mk i l v w cs crit desc)) :
    ∀ n, P n
  | .mk i l v w cs crit desc =>
    h i l v w cs crit desc fun c hc =>
      have : sizeOf c < sizeOf (ImpactNode.mk i l v w cs crit desc) := by
        have h1 := List.sizeOf_lt_of_mem hc
        simp only [ImpactNode.mk.sizeOf_spec]
        omega
      ImpactNode.strongInd h c
termination_by n => sizeOf n

/-- A leaf is returned unchanged by `resolve`. -/
theorem resolveT_leaf (i l : String) (v w : ℝ) (crit : Bool) (d : String) :
    resolveT (.mk i l v w [] crit d) = .mk i l v w [] crit d := rfl

/-- Unfolding of `resolve` on a node with children. -/
theorem resolveT_of_ne (i l : String) (v w : ℝ) (cs : List ImpactNode)
    (crit : Bool) (desc : String) (h : cs ≠ []) :
    resolveT (.mk i l v w cs crit desc) =
      .mk i l
        (min 1
          (if (i = "scalability" ∨ i = "query_impact") ∧ 0.85 ≤ avgOf (resolveList cs) then
            min 1 (avgOf (resolveList cs) * 1.1)
          else avgOf (resolveList cs)))
        w (resolveList cs) crit desc := by
  cases cs with
  | nil => exact absurd rfl h
  | cons c rest => rfl

/-- Embedding of `resolveList` is `map resolveT`. -/
theorem resolveList_eq_map (cs : List ImpactNode) : resolveList cs = cs.map resolveT := by
  induction cs with
  | nil => rfl
  | cons c t ih => simp [resolveList, ih]

/-- Embedding of `resolve` keeps node ids. -/
theorem id_resolveT (n : ImpactNode) : (resolveT n).id = n.id := by
  cases n with
  | mk i l v w cs crit desc => cases cs <;> rfl

/-- Embedding of `resolve` keeps node labels. -/
theorem label_resolveT (n : ImpactNode) : (resolveT n).label = n.label := by
  cases n with
  | mk i l v w cs crit desc => cases cs <;> rfl

/-- Embedding of `resolve` keeps node weights. -/
theorem weight_resolveT (n : ImpactNode) : (resolveT n).weight = n.weight := by
  cases n with
  | mk i l v w cs crit desc => cases cs <;> rfl

/-- Embedding of `resolve` resolves the children in place. -/
theorem children_resolveT (n : ImpactNode) : (resolveT n).children = resolveList n.children := by
  cases n with
  | mk i l v w cs crit desc => cases cs <;> rfl

/-- Embedding of `resolve` keeps effective weights. -/
theorem effWeight_resolveT (n : ImpactNode) : effWeight (resolveT n) = effWeight n := by
  simp [effWeight, weight_resolveT]

/-- The value `resolve` returns for a leaf. -/
theorem resolveVal_leaf (i l : String) (v w : ℝ) (crit : Bool) (d : String) :
    resolveVal (.mk i l v w [] crit d) = v := rfl

/-- Resolving an already-resolved child list is the identity, given the
member-wise statement. -/
theorem resolveList_idem_of (cs : List ImpactNode)
    (h : ∀ c ∈ cs, resolveT (resolveT c) = resolveT c) :
    resolveList (resolveList cs) = resolveList cs := by
  induction cs with
  | nil => rfl
  | cons c t ih =>
    have hc := h c (List.mem_cons_self c t)
    have ht := ih fun x hx => h x (List.mem_cons_of_mem c hx)
    show resolveT (resolveT c) :: resolveList (resolveList t) = _
    rw [hc, ht]
    rfl

/-- Embedding of `resolve` is idempotent on trees. -/
theorem resolveT_idem : ∀ n : ImpactNode, resolveT (resolveT n) = resolveT n := by
  apply ImpactNode.strongInd
  intro i l v w cs crit desc ih
  cases cs with
  | nil => rfl
  | cons c rest =>
    have hne : (c :: rest) ≠ ([] : List ImpactNode) := by simp
    have hlist : resolveList (resolveList (c :: rest)) = resolveList (c :: rest) :=
      resolveList_idem_of _ ih
    have hne2 : resolveList (c :: rest) ≠ ([] : List ImpactNode) := by
      show resolveT c :: resolveList rest ≠ []
      simp
    rw [resolveT_of_ne _ _ _ _ _ _ _ hne, resolveT_of_ne _ _ _ _ _ _ _ hne2, hlist]

/-- C9: resolving an already-resolved tree again (leaf values unchanged, as
`resolve` never writes a leaf) leaves every stored node value unchanged and
yields the same root value: `resolve` is idempotent, a pure function of the
current leaf values. -/
theorem c9_resolve_idempotent :
    ∀ n : ImpactNode,
      resolveT (resolveT n) = resolveT n ∧ resolveVal (resolveT n) = resolveVal n := by
  intro n
  refine ⟨resolveT_idem n, ?_⟩
  show (resolveT (resolveT n)).value = (resolveT n).value
  rw [resolveT_idem n]

/-! ## Flatten lemmas and value bounds -/

/-- Membership in a flattened child list. -/
theorem mem_flattenList {x : ImpactNode} :
    ∀ {cs : List ImpactNode}, x ∈ flattenList cs ↔ ∃ c ∈ cs, x ∈ flattenT c := by
  intro cs
  induction cs with
  | nil => simp [flattenList]
  | cons c t ih =>
    show x ∈ flattenT c ++ flattenList t ↔ _
    simp [List.mem_append, ih]

/-- A node is the head of its own flattening. -/
theorem self_mem_flattenT (n : ImpactNode) : n ∈ flattenT n := by
  cases n with
  | mk i l v w cs crit desc => exact List.mem_cons_self _ _

/-- Flattenings of children are contained in the parent's flattening. -/
theorem mem_flattenT_of_child {x c : ImpactNode} {i l : String} {v w : ℝ}
    {cs : List ImpactNode} {crit : Bool} {desc : String}
    (hc : c ∈ cs) (hx : x ∈ flattenT c) :
    x ∈ flattenT (.mk i l v w cs crit desc) := by
  show x ∈ ImpactNode.mk i l v w cs crit desc :: flattenList cs
  exact List.mem_cons_of_mem _ (mem_flattenList.mpr ⟨c, hc, hx⟩)

/-- The weighted child average lies in `[0,1]` whenever the resolved child
values do and the declared weights are nonnegative (`weight || 1` then makes
every effective weight strictly positive). -/
theorem avgOf_resolved_mem01 (cs : List ImpactNode) (hne : cs ≠ [])
    (hb : ∀ x ∈ cs, 0 ≤ resolveVal x ∧ resolveVal x ≤ 1)
    (hw : ∀ x ∈ cs, 0 ≤ x.weight) :
    0 ≤ avgOf (resolveList cs) ∧ avgOf (resolveList cs) ≤ 1 := by
  cases cs with
  | nil => exact absurd rfl hne
  | cons c rest =>
    have heff : ∀ x ∈ (c :: rest), 0 < effWeight (resolveT x) := by
      intro x hx
      rw [effWeight_resolveT]
      have h0 := hw x hx
      unfold effWeight
      split
      · norm_num
      · rename_i hne'
        exact lt_of_le_of_ne h0 (Ne.symm hne')
    have hmap : resolveList (c :: rest) = (c :: rest).map resolveT := resolveList_eq_map _
    have htot : 0 < totalWeight (resolveList (c :: rest)) := by
      rw [hmap]
      unfold totalWeight
      rw [List.map_map]
      have hc0 : 0 < effWeight (resolveT c) := heff c (List.mem_cons_self _ _)
      have hrest : 0 ≤ ((rest.map (effWeight ∘ resolveT)).sum) := by
        apply List.sum_nonneg
        intro a ha
        rcases List.mem_map.mp ha with ⟨x, hx, rfl⟩
        exact le_of_lt (heff x (List.mem_cons_of_mem _ hx))
      show (0 : ℝ) < ((c :: rest).map (effWeight ∘ resolveT)).sum
      rw [List.map_cons, List.sum_cons]
      have : (0 : ℝ) < effWeight (resolveT c) + (rest.map (effWeight ∘ resolveT)).sum :=
        add_pos_of_pos_of_nonneg hc0 hrest
      simpa using this
    have hws0 : 0 ≤ weightedSum (resolveList (c :: rest)) := by
      rw [hmap]
      unfold weightedSum
      apply List.sum_nonneg
      intro a ha
      rcases List.mem_map.mp ha with ⟨x, hx0, rfl⟩
      rcases List.mem_map.mp hx0 with ⟨y, hy, rfl⟩
      exact mul_nonneg ((hb y hy).1) (le_of_lt (heff y hy))
    have hwsle : weightedSum (resolveList (c :: rest)) ≤ totalWeight (resolveList (c :: rest)) := by
      rw [hmap]
      unfold weightedSum totalWeight
      rw [List.map_map, List.map_map]
      apply List.sum_le_sum
      intro y hy
      show (resolveT y).value * effWeight (resolveT y) ≤ effWeight (resolveT y)
      exact mul_le_of_le_one_left (le_of_lt (heff y hy)) ((hb y hy).2)
    unfold avgOf
    rw [if_pos htot]
    exact ⟨div_nonneg hws0 (le_of_lt htot), (div_le_one htot).mpr hwsle⟩

/-- Bounds on the resolved value: with leaf values in `[0,1]` and nonnegative
weights everywhere, every resolved value lies in `[0,1]`. -/
theorem resolveVal_mem01 :
    ∀ n : ImpactNode,
      (∀ x ∈ flattenT n, 0 ≤ x.weight) →
      (∀ x ∈ flattenT n, x.children = [] → 0 ≤ x.value ∧ x.value ≤ 1) →
      0 ≤ resolveVal n ∧ resolveVal n ≤ 1 := by
  apply ImpactNode.strongInd
  intro i l v w cs crit desc ih hw hl
  cases cs with
  | nil =>
    have := hl _ (self_mem_flattenT _) rfl
    simpa [resolveVal_leaf, ImpactNode.value] using this
  | cons c rest =>
    have hchild : ∀ x ∈ (c :: rest), 0 ≤ resolveVal x ∧ resolveVal x ≤ 1 := by
      intro x hx
      exact ih x hx
        (fun y hy => hw y (mem_flattenT_of_child hx hy))
        (fun y hy => hl y (mem_flattenT_of_child hx hy))
    have havg := avgOf_resolved_mem01 (c :: rest) (by simp) hchild
      (fun x hx => hw x (mem_flattenT_of_child hx (self_mem_flattenT x)))
    rw [show resolveVal (.mk i l v w (c :: rest) crit desc) =
          (resolveT (.mk i l v w (c :: rest) crit desc)).value from rfl,
        resolveT_of_ne _ _ _ _ _ _ _ (by simp)]
    show 0 ≤ min 1 _ ∧ min 1 _ ≤ 1
    constructor
    · apply le_min (by norm_num)
      split
      · exact le_min (by norm_num) (by nlinarith [havg.1])
      · exact havg.1
    · exact min_le_left _ _

/-- C2: for the `scalability` branch and the `query_impact` root, whenever the
weighted average of the resolved children reaches 0.85, the stored value is at
least that average (amplification is monotone non-decreasing) and at most 1
(the saturation cap holds).  The hypotheses are the data-model invariant:
every leaf value lies in `[0,1]` and weights are nonnegative. -/
theorem c2_dominance_floor :
    ∀ n : ImpactNode,
      (n.id = "scalability" ∨ n.id = "query_impact") →
      n.children ≠ [] →
      (∀ x ∈ flattenT n, 0 ≤ x.weight) →
      (∀ x ∈ flattenT n, x.children = [] → 0 ≤ x.value ∧ x.value ≤ 1) →
      0.85 ≤ avgOf (resolveList n.children) →
      avgOf (resolveList n.children) ≤ resolveVal n ∧ resolveVal n ≤ 1 := by
  intro n hid hne hw hl havg85
  cases n with
  | mk i l v w cs crit desc =>
    have hne' : cs ≠ [] := hne
    have hchild : ∀ x ∈ cs, 0 ≤ resolveVal x ∧ resolveVal x ≤ 1 := by
      intro x hx
      exact resolveVal_mem01 x
        (fun y hy => hw y (mem_flattenT_of_child hx hy))
        (fun y hy => hl y (mem_flattenT_of_child hx hy))
    have havg01 := avgOf_resolved_mem01 cs hne' hchild
      (fun x hx => hw x (mem_flattenT_of_child hx (self_mem_flattenT x)))
    have hcs : (ImpactNode.mk i l v w cs crit desc).children = cs := rfl
    rw [hcs] at havg85 ⊢
    rw [show resolveVal (.mk i l v w cs crit desc) =
          (resolveT (.mk i l v w cs crit desc)).value from rfl,
        resolveT_of_ne _ _ _ _ _ _ _ hne']
    show avgOf (resolveList cs) ≤ min 1 _ ∧ min 1 _ ≤ 1
    rw [if_pos ⟨hid, havg85⟩]
    constructor
    · exact le_min havg01.2 (le_min havg01.2 (by nlinarith [havg01.1]))
    · exact min_le_left _ _

/-- Witness for C2 at a concrete scalability node with child average 0.9. -/
theorem c2_dominance_floor_witness :
    (0.9 : ℝ) ≤ resolveVal c2DemoNode ∧ resolveVal c2DemoNode ≤ 1 := by
  have hch : c2DemoNode.children = [leafNode "a" 0.9 1, leafNode "b" 0.9 1] := rfl
  have havg : avgOf (resolveList c2DemoNode.children) = 0.9 := by
    rw [hch]
    show avgOf [resolveT (leafNode "a" 0.9 1), resolveT (leafNode "b" 0.9 1)] = 0.9
    simp only [leafNode, resolveT_leaf]
    unfold avgOf totalWeight weightedSum effWeight
    simp [ImpactNode.value, ImpactNode.weight]
    norm_num
  have hflat : flattenT c2DemoNode =
      [c2DemoNode, leafNode "a" 0.9 1, leafNode "b" 0.9 1] := rfl
  have h := c2_dominance_floor c2DemoNode (Or.inl rfl)
    (by rw [hch]; simp)
    (by
      intro x hx
      rw [hflat] at hx
      simp only [List.mem_cons, List.not_mem_nil, or_false] at hx
      rcases hx with rfl | rfl | rfl <;>
        norm_num [c2DemoNode, leafNode, ImpactNode.weight])
    (by
      intro x hx
      rw [hflat] at hx
      simp only [List.mem_cons, List.not_mem_nil, or_false] at hx
      rcases hx with rfl | rfl | rfl <;> intro hcx
      · exact absurd hcx (by rw [hch]; simp)
      · norm_num [leafNode, ImpactNode.value]
      · norm_num [leafNode, ImpactNode.value])
    (by rw [havg]; norm_num)
  rw [havg] at h
  exact h

/-- With all declared weights zero, every effective weight is 1, so the
resolver's total weight is the number of children. -/
theorem totalWeight_resolveList_zeroW :
    ∀ cs : List ImpactNode, (∀ c ∈ cs, c.weight = 0) →
      totalWeight (resolveList cs) = cs.length := by
  intro cs h
  induction cs with
  | nil => simp [resolveList, totalWeight]
  | cons c t ih =>
    have hc : effWeight (resolveT c) = 1 := by
      rw [effWeight_resolveT]
      unfold effWeight
      rw [if_pos (h c (List.mem_cons_self _ _))]
    show ((resolveT c :: resolveList t).map effWeight).sum = _
    rw [List.map_cons, List.sum_cons, hc,
      show (resolveList t).map effWeight = [] ++ (resolveList t).map effWeight from rfl]
    have ht := ih fun x hx => h x (List.mem_cons_of_mem _ hx)
    unfold totalWeight at ht
    rw [List.nil_append, ht]
    simp [List.length_cons]
    push_cast
    ring

/-- With all declared weights zero, the resolver's weighted sum is the plain
sum of the resolved child values. -/
theorem weightedSum_resolveList_zeroW :
    ∀ cs : List ImpactNode, (∀ c ∈ cs, c.weight = 0) →
      weightedSum (resolveList cs) = (cs.map resolveVal).sum := by
  intro cs h
  induction cs with
  | nil => simp [resolveList, weightedSum]
  | cons c t ih =>
    have hc : effWeight (resolveT c) = 1 := by
      rw [effWeight_resolveT]
      unfold effWeight
      rw [if_pos (h c (List.mem_cons_self _ _))]
    show ((resolveT c :: resolveList t).map fun x => x.value * effWeight x).sum = _
    rw [List.map_cons, List.sum_cons, hc]
    have ht := ih fun x hx => h x (List.mem_cons_of_mem _ hx)
    unfold weightedSum at ht
    rw [ht, List.map_cons, List.sum_cons]
    show (resolveT c).value * 1 + _ = resolveVal c + _
    rw [mul_one]
    rfl

/-- C1 (amended): for a node with children (outside the dominance-amplified
ids), `resolve` stores `min(1, Σ(childValue·w̃)/Σ w̃)` where `w̃` is the
child's declared weight with `0` coerced to `1` (JS `weight || 1`); the
`[0.2, 0.8]` / `[1, 1]` example resolves to exactly 0.5; and when every child
weight is zero the node's value is `min(1, ·)` of the plain unweighted
average of the resolved children, not 0 (the zero-total-weight guard is
unreachable for all-zero weights). -/
theorem c1_weighted_average_effective :
    (∀ n : ImpactNode, n.children ≠ [] → n.id ≠ "scalability" → n.id ≠ "query_impact" →
        resolveVal n = min 1 (avgOf (resolveList n.children))) ∧
    resolveVal c1HalfNode = 0.5 ∧
    (∀ n : ImpactNode, n.children ≠ [] → (∀ c ∈ n.children, c.weight = 0) →
        n.id ≠ "scalability" → n.id ≠ "query_impact" →
        resolveVal n = min 1 ((n.children.map resolveVal).sum / (n.children.length : ℝ))) := by
  have partA : ∀ n : ImpactNode, n.children ≠ [] → n.id ≠ "scalability" →
      n.id ≠ "query_impact" → resolveVal n = min 1 (avgOf (resolveList n.children)) := by
    intro n h1 h2 h3
    cases n with
    | mk i l v w cs crit desc =>
      have hne : cs ≠ [] := h1
      rw [show resolveVal (.mk i l v w cs crit desc) =
            (resolveT (.mk i l v w cs crit desc)).value from rfl,
          resolveT_of_ne _ _ _ _ _ _ _ hne]
      show min 1 _ = _
      rw [if_neg (by rintro ⟨hi | hi, -⟩; exacts [h2 hi, h3 hi])]
      rfl
  have partC : ∀ n : ImpactNode, n.children ≠ [] → (∀ c ∈ n.children, c.weight = 0) →
      n.id ≠ "scalability" → n.id ≠ "query_impact" →
      resolveVal n = min 1 ((n.children.map resolveVal).sum / (n.children.length : ℝ)) := by
    intro n h1 h2 h3 h4
    rw [partA n h1 h3 h4]
    congr 1
    unfold avgOf
    rw [totalWeight_resolveList_zeroW _ h2, weightedSum_resolveList_zeroW _ h2]
    rw [if_pos]
    exact_mod_cast List.length_pos.mpr h1
  refine ⟨partA, ?_, partC⟩
  have h := partA c1HalfNode (by rw [show c1HalfNode.children =
      [leafNode "a" 0.2 1, leafNode "b" 0.8 1] from rfl]; simp)
    (by rw [show c1HalfNode.id = "n" from rfl]; decide)
    (by rw [show c1HalfNode.id = "n" from rfl]; decide)
  rw [h, show c1HalfNode.children = [leafNode "a" 0.2 1, leafNode "b" 0.8 1] from rfl]
  show min 1 (avgOf [resolveT (leafNode "a" 0.2 1), resolveT (leafNode "b" 0.8 1)]) = 0.5
  simp only [leafNode, resolveT_leaf]
  unfold avgOf totalWeight weightedSum effWeight
  simp [ImpactNode.value, ImpactNode.weight]
  norm_num

/-- Counterexample for C1: a node whose two children have values 0.2 / 0.8
and weights 0 / 0 resolves to 0.5, not to 0 as the claim's all-zero-weight
clause states. -/
theorem c1_counterexample : resolveVal c1ZeroWeightNode = 0.5 ∧ (0.5 : ℝ) ≠ 0 := by
  constructor
  · rw [show resolveVal c1ZeroWeightNode =
        (resolveT (.mk "z" "z" 0 1 [leafNode "a" 0.2 0, leafNode "b" 0.8 0] false "")).value
        from rfl,
      resolveT_of_ne _ _ _ _ _ _ _ (by simp)]
    show min 1 _ = _
    rw [if_neg (by rintro ⟨hi | hi, -⟩ <;> simp_all)]
    show min 1 (avgOf [resolveT (leafNode "a" 0.2 0), resolveT (leafNode "b" 0.8 0)]) = 0.5
    simp only [leafNode, resolveT_leaf]
    unfold avgOf totalWeight weightedSum effWeight
    simp [ImpactNode.value, ImpactNode.weight]
    norm_num
  · norm_num

/-- Witness for C1 at a concrete all-zero-weight node with child values
0.4 / 0.6: the resolved value is the unweighted average 0.5. -/
theorem c1_weighted_average_effective_witness : resolveVal c1AvgNode = 0.5 := by
  have h := c1_weighted_average_effective.2.2 c1AvgNode
    (by rw [show c1AvgNode.children = [leafNode "a" 0.4 0, leafNode "b" 0.6 0] from rfl]; simp)
    (by
      intro c hc
      rw [show c1AvgNode.children = [leafNode "a" 0.4 0, leafNode "b" 0.6 0] from rfl] at hc
      simp only [List.mem_cons, List.not_mem_nil, or_false] at hc
      rcases hc with rfl | rfl <;> rfl)
    (by rw [show c1AvgNode.id = "w" from rfl]; decide)
    (by rw [show c1AvgNode.id = "w" from rfl]; decide)
  rw [h, show c1AvgNode.children = [leafNode "a" 0.4 0, leafNode "b" 0.6 0] from rfl]
  show min 1 (([leafNode "a" 0.4 0, leafNode "b" 0.6 0].map resolveVal).sum / _) = 0.5
  simp only [leafNode, List.map_cons, List.map_nil]
  rw [show resolveVal (.mk "a" "a" 0.4 0 [] false "") = 0.4 from rfl,
    show resolveVal (.mk "b" "b" 0.6 0 [] false "") = 0.6 from rfl]
  norm_num

/-- The clamp maps into `[0,1]`. -/
theorem clamp_mem01 (v : ℝ) : 0 ≤ clamp v ∧ clamp v ≤ 1 :=
  ⟨le_max_left _ _, max_le (by norm_num) (min_le_left _ _)⟩

/-- C3 (amended): for all `actual, critical > 0` the result lies in `[0,1]`;
`logNormalize x c = 0` for every `x ≤ 1`; and `logNormalize c c = 1` exactly
for every `c > 1` (for `0 < c ≤ 1` the function returns 0, not ≈ 1, because
the `actual ≤ 1` guard fires first). -/
theorem c3_logNormalize_bounds :
    (∀ a c : ℝ, 0 < a → 0 < c → 0 ≤ logNormalize a c ∧ logNormalize a c ≤ 1) ∧
    (∀ x c : ℝ, x ≤ 1 → logNormalize x c = 0) ∧
    (∀ c : ℝ, 1 < c → logNormalize c c = 1) := by
  refine ⟨?_, ?_, ?_⟩
  · intro a c _ _
    unfold logNormalize
    split_ifs
    · norm_num
    · norm_num
    · exact clamp_mem01 _
  · intro x c h
    unfold logNormalize
    rw [if_pos h]
  · intro c hc
    unfold logNormalize
    rw [if_neg (not_le.mpr hc), if_neg hc.ne']
    rw [div_self (ne_of_gt (Real.logb_pos (by norm_num) hc))]
    unfold clamp
    norm_num

/-- Counterexample for C3: `logNormalize c c ≈ 1` fails at `c = 1 > 0`, where
the function returns 0. -/
theorem c3_counterexample : logNormalize 1 1 = 0 ∧ (0 : ℝ) ≠ 1 := by
  constructor
  · unfold logNormalize
    rw [if_pos le_rfl]
  · norm_num

/-- Witness for C3 at concrete inputs: `logNormalize 2 2 = 1`,
`logNormalize 0.5 4 = 0`, and `logNormalize 3 2 ∈ [0,1]`. -/
theorem c3_logNormalize_bounds_witness :
    logNormalize 2 2 = 1 ∧ logNormalize 0.5 4 = 0 ∧
      (0 ≤ logNormalize 3 2 ∧ logNormalize 3 2 ≤ 1) :=
  ⟨c3_logNormalize_bounds.2.2 2 (by norm_num),
   c3_logNormalize_bounds.2.1 0.5 4 (by norm_num),
   c3_logNormalize_bounds.1 3 2 (by norm_num) (by norm_num)⟩

/-- C6: the computed waste ratio is `removed/(removed+returned)` damped by
`min(1, log10(removed+returned)/5)` when any rows were read and 0 otherwise,
and it always lies in `[0,1]`. -/
theorem c6_waste_ratio_bounds (plan : String) :
    (extractAllMetrics plan).wasteRatioVal =
      (if 0 < rowsRemovedOf plan + actualRowsOf plan then
        ((rowsRemovedOf plan : ℝ) / ((rowsRemovedOf plan + actualRowsOf plan : ℕ) : ℝ)) *
          min 1 (Real.logb 10 ((rowsRemovedOf plan + actualRowsOf plan : ℕ) : ℝ) / 5)
      else 0) ∧
    0 ≤ (extractAllMetrics plan).wasteRatioVal ∧
      (extractAllMetrics plan).wasteRatioVal ≤ 1 := by
  have hdef : (extractAllMetrics plan).wasteRatioVal =
      (if 0 < rowsRemovedOf plan + actualRowsOf plan then
        ((rowsRemovedOf plan : ℝ) / ((rowsRemovedOf plan + actualRowsOf plan : ℕ) : ℝ)) *
          min 1 (Real.logb 10 ((rowsRemovedOf plan + actualRowsOf plan : ℕ) : ℝ) / 5)
      else 0) := rfl
  refine ⟨hdef, ?_⟩
  rw [hdef]
  rcases Nat.eq_zero_or_pos (rowsRemovedOf plan + actualRowsOf plan) with h0 | hpos
  · rw [if_neg (by omega)]
    norm_num
  · rw [if_pos hpos]
    have htotR : (0 : ℝ) < ((rowsRemovedOf plan + actualRowsOf plan : ℕ) : ℝ) := by
      exact_mod_cast hpos
    have hratio0 : (0 : ℝ) ≤
        (rowsRemovedOf plan : ℝ) / ((rowsRemovedOf plan + actualRowsOf plan : ℕ) : ℝ) :=
      div_nonneg (by positivity) (le_of_lt htotR)
    have hratio1 :
        (rowsRemovedOf plan : ℝ) / ((rowsRemovedOf plan + actualRowsOf plan : ℕ) : ℝ) ≤ 1 := by
      rw [div_le_one htotR]
      exact_mod_cast Nat.le_add_right _ _
    have hlog : (0 : ℝ) ≤
        Real.logb 10 ((rowsRemovedOf plan + actualRowsOf plan : ℕ) : ℝ) / 5 := by
      apply div_nonneg _ (by norm_num)
      apply Real.logb_nonneg (by norm_num)
      exact_mod_cast hpos
    have hd0 : (0 : ℝ) ≤
        min 1 (Real.logb 10 ((rowsRemovedOf plan + actualRowsOf plan : ℕ) : ℝ) / 5) :=
      le_min (by norm_num) hlog
    constructor
    · exact mul_nonneg hratio0 hd0
    · exact mul_le_one hratio1 hd0 (min_le_left _ _)

/-- C5 (amended): with no execution-time line and no actual-time interval,
the extraction falls back to the planner cost figure divided by 100 and sets
`execTimeInExplain` to `true` whenever that estimate is positive (the flag
records that a positive time was derived, not which tier produced it); only
when no cost figure yields a positive value does it fall back to the epsilon
0.01 with `execTimeInExplain = false`. -/
theorem c5_execution_time_fallback (plan : String)
    (h1 : execTimeCap plan = none) (h2 : actualTimeCap plan = none) :
    getExecutionTimeAndExplain plan =
      match costCap plan with
      | some cap =>
        match jsParseFloat cap with
        | some q => if 0 < (q : ℝ) / 100 then ((q : ℝ) / 100, true) else (0.01, false)
        | none => (0.01, false)
      | none => (0.01, false) := by
  unfold getExecutionTimeAndExplain
  rw [h1, h2]
  cases hc : costCap plan with
  | none => simp [hc]
  | some cap =>
    cases hq : jsParseFloat cap with
    | none => simp [hc, hq]
    | some q => simp [hc, hq]

/-- Counterexample for C5: a plan with no `Execution Time` line and no
`actual time=` interval but with a planner cost figure gets
`execTimeInExplain = true` (the claim says `false`). -/
theorem c5_counterexample :
    containsSub planC5 "Execution Time" = false ∧
    containsSub planC5 "Execution time" = false ∧
    containsSub planC5 "actual time=" = false ∧
    (getExecutionTimeAndExplain planC5).2 = true := by
  refine ⟨by decide, by decide, by decide, ?_⟩
  have h1 : execTimeCap planC5 = none := by decide
  have h2 : actualTimeCap planC5 = none := by decide
  have h3 : costCap planC5 = some ("431.00".toList) := by decide
  have h4 : jsParseFloat ("431.00".toList) =
      some ((natOfDigits ("431".toList) : ℚ) +
        (natOfDigits ("00".toList) : ℚ) / 10 ^ ("00".toList.length)) := rfl
  rw [show natOfDigits ("431".toList) = 431 from by decide,
      show natOfDigits ("00".toList) = 0 from by decide,
      show ("00".toList.length) = 2 from by decide] at h4
  unfold getExecutionTimeAndExplain
  rw [h1, h2, h3]
  simp only [h4, Option.bind_eq_bind, Option.some_bind]
  norm_num

/-- Witness for C5 at a plan with none of the three time sources: the
epsilon fallback 0.01 with `execTimeInExplain = false`. -/
theorem c5_execution_time_fallback_witness :
    getExecutionTimeAndExplain planC5b = (0.01, false) := by
  have h := c5_execution_time_fallback planC5b (by decide) (by decide)
  rw [h, show costCap planC5b = none from by decide]

/-! ## Lemmas about the collapse map -/

/-- Embedding of `mapGet` on the empty map. -/
theorem mapGet_nil (k : String) : mapGet [] k = none := rfl

/-- Embedding of `mapGet` on a cons cell. -/
theorem mapGet_cons (k' : String) (v' : EvaluatedSuggestion) (t : SugMap) (k : String) :
    mapGet ((k', v') :: t) k = if k' = k then some v' else mapGet t k := by
  by_cases h : k' = k <;> simp [mapGet, List.find?, h]

/-- Embedding of `map.has` agrees with `map.get`. -/
theorem mapHas_eq (m : SugMap) (k : String) : mapHas m k = (mapGet m k).isSome := by
  induction m with
  | nil => rfl
  | cons p t ih =>
    obtain ⟨k', v'⟩ := p
    by_cases h : k' = k <;> simp [mapHas, mapGet_cons, h] <;>
      simpa [mapHas] using ih

/-- Lookup after `map.set`. -/
theorem mapGet_mapSet (m : SugMap) (k t : String) (v : EvaluatedSuggestion) :
    mapGet (mapSet m k v) t = if t = k then some v else mapGet m t := by
  induction m with
  | nil =>
    show mapGet [(k, v)] t = _
    rw [mapGet_cons, mapGet_nil]
    by_cases h : t = k
    · rw [if_pos h.symm, if_pos h]
    · rw [if_neg (fun hh => h hh.symm), if_neg h]
  | cons p m' ih =>
    obtain ⟨k', v'⟩ := p
    show mapGet (if k' = k then (k, v) :: m' else (k', v') :: mapSet m' k v) t = _
    by_cases hk : k' = k
    · subst hk
      rw [if_pos rfl, mapGet_cons, mapGet_cons]
      by_cases ht : t = k'
      · rw [if_pos ht.symm, if_pos ht]
      · rw [if_neg (fun hh => ht hh.symm), if_neg ht,
          if_neg (fun hh => ht hh.symm)]
    · rw [if_neg hk, mapGet_cons, ih, mapGet_cons]
      by_cases h1 : k' = t
      · have ht : ¬t = k := fun hh => hk (h1.trans hh)
        rw [if_pos h1, if_neg ht, if_pos h1]
      · by_cases h2 : t = k
        · rw [if_neg h1, if_pos h2, if_pos h2]
        · rw [if_neg h1, if_neg h2, if_neg h2, if_neg h1]

/-- Membership after `map.set`. -/
theorem mem_mapSet {p : String × EvaluatedSuggestion} (m : SugMap) (k : String)
    (v : EvaluatedSuggestion) (h : p ∈ mapSet m k v) : p = (k, v) ∨ p ∈ m := by
  induction m with
  | nil => simpa [mapSet] using h
  | cons q m' ih =>
    obtain ⟨k', v'⟩ := q
    by_cases hk : k' = k
    · rw [show mapSet ((k', v') :: m') k v = (k, v) :: m' from by simp [mapSet, hk]] at h
      rcases List.mem_cons.mp h with h | h
      · exact Or.inl h
      · exact Or.inr (List.mem_cons_of_mem _ h)
    · rw [show mapSet ((k', v') :: m') k v = (k', v') :: mapSet m' k v from by
          simp [mapSet, hk]] at h
      rcases List.mem_cons.mp h with h | h
      · exact Or.inr (List.mem_cons.mpr (Or.inl h))
      · rcases ih h with h | h
        · exact Or.inl h
        · exact Or.inr (List.mem_cons_of_mem _ h)

/-- Keys after `map.set`: replaced in place, or appended when absent. -/
theorem keys_mapSet (m : SugMap) (k : String) (v : EvaluatedSuggestion) :
    (mapSet m k v).map Prod.fst =
      if k ∈ m.map Prod.fst then m.map Prod.fst else m.map Prod.fst ++ [k] := by
  induction m with
  | nil => simp [mapSet]
  | cons q m' ih =>
    obtain ⟨k', v'⟩ := q
    by_cases hk : k' = k
    · subst hk
      simp [mapSet]
    · rw [show mapSet ((k', v') :: m') k v = (k', v') :: mapSet m' k v from by
          simp [mapSet, hk]]
      rw [List.map_cons, List.map_cons, ih]
      by_cases hm : k ∈ m'.map Prod.fst
      · rw [if_pos hm, if_pos (by simp [hm])]
      · rw [if_neg hm, if_neg (by
            simp only [List.map_cons, List.mem_cons]
            rintro (h | h)
            · exact hk h.symm
            · exact hm h), List.cons_append]

/-- The invariant of the collapse map: every entry's value has the entry's
key as its `type`, and keys are unique. -/
def MapInv (m : SugMap) : Prop :=
  (∀ p ∈ m, p.2.type = p.1) ∧ (m.map Prod.fst).Nodup

/-- Embedding of `map.set` preserves the invariant when the value carries the key. -/
theorem mapInv_mapSet {m : SugMap} (h : MapInv m) {k : String}
    {v : EvaluatedSuggestion} (hv : v.type = k) : MapInv (mapSet m k v) := by
  constructor
  · intro p hp
    rcases mem_mapSet m k v hp with rfl | hp
    · exact hv
    · exact h.1 p hp
  · rw [keys_mapSet]
    by_cases hm : k ∈ m.map Prod.fst
    · rw [if_pos hm]; exact h.2
    · rw [if_neg hm]
      rw [List.nodup_append]
      exact ⟨h.2, List.nodup_singleton _, by simpa using hm⟩

/-- One collapse step preserves the invariant. -/
theorem mapInv_collapseStep {m : SugMap} (h : MapInv m) (s : EvaluatedSuggestion) :
    MapInv (collapseStep m s) := by
  unfold collapseStep
  split
  · split
    · split
      · exact mapInv_mapSet h rfl
      · exact h
    · exact h
  · exact mapInv_mapSet h rfl

/-- The collapse fold preserves the invariant. -/
theorem mapInv_foldl (l : List EvaluatedSuggestion) :
    ∀ m : SugMap, MapInv m → MapInv (l.foldl collapseStep m) := by
  induction l with
  | nil => exact fun m h => h
  | cons s r ih => exact fun m h => ih _ (mapInv_collapseStep h s)

/-- Lookup through the collapse fold is the per-key best fold over the
suggestions of that type. -/
theorem mapGet_foldl (l : List EvaluatedSuggestion) :
    ∀ (m : SugMap) (t : String),
      mapGet (l.foldl collapseStep m) t =
        bestFold (mapGet m t) (l.filter fun s => s.type = t) := by
  induction l with
  | nil => intro m t; rfl
  | cons s r ih =>
    intro m t
    rw [List.foldl_cons, ih]
    by_cases hst : s.type = t
    · rw [List.filter_cons, if_pos (by simpa using hst)]
      show _ = bestFold _ (s :: _)
      rw [show bestFold (mapGet m t) (s :: List.filter (fun s => decide (s.type = t)) r) =
            bestFold
              (match mapGet m t with
               | none => some s
               | some e => if e.score < s.score then some s else some e)
              (List.filter (fun s => decide (s.type = t)) r) from rfl]
      congr 1
      subst hst
      unfold collapseStep
      rw [mapHas_eq]
      cases hg : mapGet m s.type with
      | none => simp [hg, mapGet_mapSet]
      | some e =>
        show mapGet (if e.score < s.score then mapSet m s.type s else m) s.type =
          if e.score < s.score then some s else some e
        by_cases hsc : e.score < s.score
        · rw [if_pos hsc, if_pos hsc, mapGet_mapSet, if_pos rfl]
        · rw [if_neg hsc, if_neg hsc, hg]
    · rw [List.filter_cons, if_neg (by simpa using hst)]
      congr 1
      unfold collapseStep
      split
      · split
        · split
          · rw [mapGet_mapSet, if_neg (fun hh => hst hh.symm)]
          · rfl
        · rfl
      · rw [mapGet_mapSet, if_neg (fun hh => hst hh.symm)]

/-- With the invariant, filtering the map's values by a type yields exactly
the lookup result. -/
theorem values_filter_of_inv (m : SugMap) (hinv : MapInv m) (t : String) :
    (m.map Prod.snd).filter (fun s => s.type = t) = (mapGet m t).toList := by
  induction m with
  | nil => rfl
  | cons p m' ih =>
    obtain ⟨k, v⟩ := p
    have hvk : v.type = k := hinv.1 (k, v) (List.mem_cons_self _ _)
    have hknotin : k ∉ m'.map Prod.fst := by
      have := hinv.2
      rw [List.map_cons, List.nodup_cons] at this
      exact this.1
    have hinv' : MapInv m' := by
      refine ⟨fun p hp => hinv.1 p (List.mem_cons_of_mem _ hp), ?_⟩
      have := hinv.2
      rw [List.map_cons, List.nodup_cons] at this
      exact this.2
    rw [List.map_cons, List.filter_cons, mapGet_cons]
    by_cases hk : k = t
    · rw [if_pos (by simp [hvk, hk]), if_pos hk]
      subst hk
      have hrest : List.filter (fun s => decide (s.type = k)) (m'.map Prod.snd) = [] := by
        apply List.filter_eq_nil.mpr
        intro a ha
        rcases List.mem_map.mp ha with ⟨q, hq, rfl⟩
        have := hinv'.1 q hq
        simp only [decide_eq_true_eq]
        intro hqa
        exact hknotin (List.mem_map.mpr ⟨q, hq, by rw [← this, hqa]⟩)
      rw [hrest]
      rfl
    · rw [if_neg (by simp [hvk, hk]), if_neg hk]
      exact ih hinv'

/-- C7: if the collapse input contains exactly two evaluated suggestions with
the same template id and different scores, the output contains exactly one
suggestion with that id, and it is the one with the higher score. -/
theorem c7_collapse_keeps_higher (l : List EvaluatedSuggestion) (t : String)
    (s1 s2 : EvaluatedSuggestion)
    (hf : l.filter (fun s => s.type = t) = [s1, s2])
    (hs : s1.score ≠ s2.score) :
    (collapseSuggestions l).filter (fun s => s.type = t) =
      [if s1.score < s2.score then s2 else s1] := by
  unfold collapseSuggestions
  have hinv : MapInv (l.foldl collapseStep []) :=
    mapInv_foldl l [] ⟨by simp, by simp⟩
  rw [values_filter_of_inv _ hinv t, mapGet_foldl l [] t, hf]
  show (bestFold (some s1) [s2]).toList = _
  show (bestFold (if s1.score < s2.score then some s2 else some s1) []).toList = _
  by_cases h : s1.score < s2.score
  · rw [if_pos h, if_pos h]
    rfl
  · rw [if_neg h, if_neg h]
    rfl

/-- Witness for C7: of two type-`T` suggestions with scores 0.3 and 0.7,
collapse keeps exactly the one with score 0.7. -/
theorem c7_collapse_keeps_higher_witness :
    (collapseSuggestions [c7sugA, c7sugB]).filter (fun s => s.type = "T") = [c7sugB] := by
  have hf : [c7sugA, c7sugB].filter (fun s => s.type = "T") = [c7sugA, c7sugB] := rfl
  have hs : c7sugA.score ≠ c7sugB.score := by
    show (0.3 : ℝ) ≠ 0.7
    norm_num
  have h := c7_collapse_keeps_higher [c7sugA, c7sugB] "T" c7sugA c7sugB hf hs
  rw [h, if_pos (show c7sugA.score < c7sugB.score from by
    show (0.3 : ℝ) < 0.7
    norm_num)]

/-! ## `findNodeByTrigger` on the built tree -/

/-- A search over a child list fails if it fails on every child. -/
theorem searchNodeList_eq_none (q : ImpactNode → Bool) :
    ∀ cs : List ImpactNode, (∀ c ∈ cs, searchNode q c = none) →
      searchNodeList q cs = none := by
  intro cs h
  induction cs with
  | nil => rfl
  | cons c t ih =>
    show (match searchNode q c with
          | some found => some found
          | none => searchNodeList q t) = none
    rw [h c (List.mem_cons_self _ _)]
    exact ih fun x hx => h x (List.mem_cons_of_mem _ hx)

/-- A search fails when the predicate is false on every node of the tree. -/
theorem searchNode_eq_none (q : ImpactNode → Bool) :
    ∀ n : ImpactNode, (∀ x ∈ flattenT n, q x = false) → searchNode q n = none := by
  apply ImpactNode.strongInd
  intro i l v w cs crit desc ih hq
  show (if q (.mk i l v w cs crit desc) then _ else searchNodeList q cs) = none
  rw [hq _ (self_mem_flattenT _)]
  show searchNodeList q cs = none
  exact searchNodeList_eq_none q cs fun c hc =>
    ih c hc fun x hx => hq x (mem_flattenT_of_child hc hx)

/-- Child-list labels are unchanged by `resolve` (member-wise version). -/
theorem labels_resolveList (cs : List ImpactNode)
    (h : ∀ c ∈ cs, (flattenT (resolveT c)).map ImpactNode.label =
      (flattenT c).map ImpactNode.label) :
    (flattenList (resolveList cs)).map ImpactNode.label =
      (flattenList cs).map ImpactNode.label := by
  induction cs with
  | nil => rfl
  | cons c t ih =>
    show ((flattenT (resolveT c) ++ flattenList (resolveList t)).map ImpactNode.label) = _
    rw [List.map_append, h c (List.mem_cons_self _ _),
      ih fun x hx => h x (List.mem_cons_of_mem _ hx),
      show flattenList (c :: t) = flattenT c ++ flattenList t from rfl, List.map_append]

/-- Embedding of `resolve` does not change the label sequence of the tree. -/
theorem labels_resolveT :
    ∀ n : ImpactNode, (flattenT (resolveT n)).map ImpactNode.label =
      (flattenT n).map ImpactNode.label := by
  apply ImpactNode.strongInd
  intro i l v w cs crit desc ih
  cases cs with
  | nil => rfl
  | cons c rest =>
    rw [resolveT_of_ne _ _ _ _ _ _ _ (by simp)]
    show (ImpactNode.mk i l _ w (resolveList (c :: rest)) crit desc ::
        flattenList (resolveList (c :: rest))).map ImpactNode.label = _
    rw [List.map_cons, labels_resolveList _ ih]
    rfl

/-- The label sequence of the built impact tree. -/
theorem labels_buildTree (m : RawMetrics) (f : StructuralFlags) :
    (flattenT (buildEcoSQLTree m f)).map ImpactNode.label =
      ["Total Query Impact", "Performance Impact", "CPU Pressure", "Memory Pressure",
       "I/O Pressure", "Scalability Risk", "Recursive Expansion", "Structural Complexity",
       "Data Waste", "Resource Contention", "Eco Impact", "Carbon Footprint"] := by
  unfold buildEcoSQLTree
  rw [labels_resolveT]
  rfl

/-- C10: on the tree built by `buildEcoSQLTree`, `findNodeByTrigger` returns
`undefined` for every trigger hint (its label substrings match no label of
the fixed tree, and hints other than the four handled ones fall through), so
every evaluated suggestion's triggering node — and hence its score — comes
from the fallback: the first dominant node, or `{id: 'unknown', value: 0}`
when the dominant-node list is empty. -/
theorem c10_trigger_fallback :
    (∀ (m : RawMetrics) (f : StructuralFlags) (hint plan : String),
        findNodeByTrigger hint (buildEcoSQLTree m f) plan = none) ∧
    (∀ (ctx : ExplanationContext) (flags : StructuralFlags) (plan : String)
        (m : RawMetrics) (f : StructuralFlags),
        ctx.impactTree = buildEcoSQLTree m f →
        ∀ s ∈ evaluateTemplates ctx flags plan,
          s.triggeringNode =
            (match ctx.dominantNodes.head? with
             | some n => (⟨n.id, n.value⟩ : TriggeringNode)
             | none => ⟨"unknown", 0⟩) ∧
          s.score = s.triggeringNode.value) := by
  have part1 : ∀ (m : RawMetrics) (f : StructuralFlags) (hint plan : String),
      findNodeByTrigger hint (buildEcoSQLTree m f) plan = none := by
    intro m f hint plan
    have hmem : ∀ x ∈ flattenT (buildEcoSQLTree m f), x.label ∈
        ["Total Query Impact", "Performance Impact", "CPU Pressure", "Memory Pressure",
         "I/O Pressure", "Scalability Risk", "Recursive Expansion", "Structural Complexity",
         "Data Waste", "Resource Contention", "Eco Impact", "Carbon Footprint"] := by
      intro x hx
      rw [← labels_buildTree m f]
      exact List.mem_map_of_mem _ hx
    unfold findNodeByTrigger
    split_ifs
    · apply searchNode_eq_none
      intro x hx
      have : ∀ lab ∈ ["Total Query Impact", "Performance Impact", "CPU Pressure",
          "Memory Pressure", "I/O Pressure", "Scalability Risk", "Recursive Expansion",
          "Structural Complexity", "Data Waste", "Resource Contention", "Eco Impact",
          "Carbon Footprint"],
          (containsSub lab "Recursive Union" || containsSub lab "CTE") = false := by decide
      exact this _ (hmem x hx)
    · apply searchNode_eq_none
      intro x hx
      have : ∀ lab ∈ ["Total Query Impact", "Performance Impact", "CPU Pressure",
          "Memory Pressure", "I/O Pressure", "Scalability Risk", "Recursive Expansion",
          "Structural Complexity", "Data Waste", "Resource Contention", "Eco Impact",
          "Carbon Footprint"],
          (containsSub lab "Sort" || containsSub lab "Hash") = false := by decide
      exact this _ (hmem x hx)
    · apply searchNode_eq_none
      intro x hx
      have : ∀ lab ∈ ["Total Query Impact", "Performance Impact", "CPU Pressure",
          "Memory Pressure", "I/O Pressure", "Scalability Risk", "Recursive Expansion",
          "Structural Complexity", "Data Waste", "Resource Contention", "Eco Impact",
          "Carbon Footprint"],
          (containsSub lab "Nested Loop" || containsSub lab "Cross Join") = false := by decide
      exact this _ (hmem x hx)
    · apply searchNode_eq_none
      intro x hx
      have : ∀ lab ∈ ["Total Query Impact", "Performance Impact", "CPU Pressure",
          "Memory Pressure", "I/O Pressure", "Scalability Risk", "Recursive Expansion",
          "Structural Complexity", "Data Waste", "Resource Contention", "Eco Impact",
          "Carbon Footprint"],
          (containsSub lab "Seq Scan" || containsSub lab "Filter") = false := by decide
      exact this _ (hmem x hx)
    · rfl
  refine ⟨part1, ?_⟩
  intro ctx flags plan m f htree s hsmem
  unfold evaluateTemplates sortSuggestionsBySeverity at hsmem
  rw [List.Perm.mem_iff (List.perm_insertionSort _ _)] at hsmem
  rcases List.mem_filterMap.mp hsmem with ⟨t, _, hsome⟩
  by_cases hrel : isTemplateRelevant t ctx flags plan
  · rw [if_pos hrel] at hsome
    obtain rfl : mkSuggestion ctx plan t = s := Option.some.inj hsome
    unfold mkSuggestion
    cases ht : t.triggerNodeId with
    | none => exact ⟨rfl, rfl⟩
    | some hint =>
      have hn : findNodeByTrigger hint ctx.impactTree plan = none := by
        rw [htree]; exact part1 m f hint plan
      simp only [ht, hn]
      constructor <;> trivial
  · rw [if_neg hrel] at hsome
    exact absurd hsome (by simp)

/-- Witness for C10: with the built tree, empty dominant-node list and
cartesian metrics, the single evaluated suggestion's triggering node is the
`{id: 'unknown', value: 0}` fallback. -/
theorem c10_trigger_fallback_witness :
    (evaluateTemplates c10ctx {} "p").map (fun s => s.triggeringNode) =
      [(⟨"unknown", 0⟩ : TriggeringNode)] := by
  have eRB : (if isTemplateRelevant tmplRecursiveBomb c10ctx {} "p" then
      some (mkSuggestion c10ctx "p" tmplRecursiveBomb) else none) = none := by
    apply if_neg
    show ¬((0 : ℕ) > 0 ∧ (false = true ∨ (0 : ℕ) > 1000))
    decide
  have ePF : (if isTemplateRelevant tmplPoorFiltering c10ctx {} "p" then
      some (mkSuggestion c10ctx "p" tmplPoorFiltering) else none) = none := by
    apply if_neg
    exact not_false
  have eNP : (if isTemplateRelevant tmplNPlusOne c10ctx {} "p" then
      some (mkSuggestion c10ctx "p" tmplNPlusOne) else none) = none := by
    apply if_neg
    exact not_false
  have eHC : (if isTemplateRelevant tmplHighCpu c10ctx {} "p" then
      some (mkSuggestion c10ctx "p" tmplHighCpu) else none) = none := by
    apply if_neg
    exact not_false
  have eII : (if isTemplateRelevant tmplInefficientIndex c10ctx {} "p" then
      some (mkSuggestion c10ctx "p" tmplInefficientIndex) else none) = none := by
    apply if_neg
    exact not_false
  have eIJ : (if isTemplateRelevant tmplInefficientJoin c10ctx {} "p" then
      some (mkSuggestion c10ctx "p" tmplInefficientJoin) else none) = none := by
    apply if_neg
    exact not_false
  have eDS : (if isTemplateRelevant tmplDiskSort c10ctx {} "p" then
      some (mkSuggestion c10ctx "p" tmplDiskSort) else none) = none := by
    apply if_neg
    show ¬(false = true ∨ (0 : ℝ) > 0)
    norm_num
  have eCP : (if isTemplateRelevant tmplCartesian c10ctx {} "p" then
      some (mkSuggestion c10ctx "p" tmplCartesian) else none) =
      some (mkSuggestion c10ctx "p" tmplCartesian) := by
    apply if_pos
    exact rfl
  have eHW : (if isTemplateRelevant tmplHighWaste c10ctx {} "p" then
      some (mkSuggestion c10ctx "p" tmplHighWaste) else none) = none := by
    apply if_neg
    show ¬(if (0 : ℝ) > 0.9 then True else ((0 : ℝ) > 0.8 ∧ (0 : ℕ) > 1000))
    rw [if_neg (by norm_num : ¬((0 : ℝ) > 0.9))]
    norm_num
  have eHSC : (if isTemplateRelevant tmplHighComplexity c10ctx {} "p" then
      some (mkSuggestion c10ctx "p" tmplHighComplexity) else none) = none := by
    apply if_neg
    exact not_false
  have eMI : (if isTemplateRelevant tmplMissingIndex c10ctx {} "p" then
      some (mkSuggestion c10ctx "p" tmplMissingIndex) else none) = none := by
    apply if_neg
    exact not_false
  have hbase : (getTemplates.filterMap fun t =>
      if isTemplateRelevant t c10ctx {} "p" then some (mkSuggestion c10ctx "p" t)
      else none) = [mkSuggestion c10ctx "p" tmplCartesian] := by
    rw [getTemplates]
    simp only [List.filterMap_cons, eRB, ePF, eNP, eHC, eII, eIJ, eDS, eCP, eHW, eHSC, eMI,
      List.filterMap_nil]
  have hlist : evaluateTemplates c10ctx {} "p" = [mkSuggestion c10ctx "p" tmplCartesian] := by
    unfold evaluateTemplates
    rw [hbase]
    rfl
  have h2 := c10_trigger_fallback.2 c10ctx {} "p" c10metrics {} rfl
    (mkSuggestion c10ctx "p" tmplCartesian)
    (by rw [hlist]; exact List.mem_singleton_self _)
  rw [hlist, List.map_cons, List.map_nil, h2.1]
  rfl

/-! ## The DISK_SORT suggestion under the stubbed `tempFilesMb` -/

/-- Embedding of `mkSuggestion` carries the template id as `type`. -/
theorem mkSuggestion_type (ctx : ExplanationContext) (plan : String) (t : Template) :
    (mkSuggestion ctx plan t).type = t.id := rfl

/-- Embedding of `mkSuggestion` carries the template kind. -/
theorem mkSuggestion_kind (ctx : ExplanationContext) (plan : String) (t : Template) :
    (mkSuggestion ctx plan t).kind = t.kind := rfl

/-- Embedding of `mkSuggestion` carries the computed severity. -/
theorem mkSuggestion_severity (ctx : ExplanationContext) (plan : String) (t : Template) :
    (mkSuggestion ctx plan t).severity = evaluateSeverity t ctx := rfl

/-- Embedding of `evaluateSeverity` on the `DISK_SORT` template reduces to the temp-file
branch followed by the saturation booster. -/
theorem evaluateSeverity_diskSort (ctx : ExplanationContext) :
    evaluateSeverity tmplDiskSort ctx =
      (if ctx.impactSaturation > 0.8 ∧
          (if ctx.rawMetrics.tempFilesMb > 50 then Severity.critical
           else if ctx.rawMetrics.tempFilesMb > 10 then Severity.high
           else Severity.medium) = Severity.medium then Severity.high
       else
         (if ctx.rawMetrics.tempFilesMb > 50 then Severity.critical
          else if ctx.rawMetrics.tempFilesMb > 10 then Severity.high
          else Severity.medium)) := rfl

/-- With `tempFilesMb = 0` (which extraction always produces, the field being
a stub), the `DISK_SORT` severity is `medium`, boosted at most to `high`. -/
theorem diskSort_severity_of_zero (ctx : ExplanationContext)
    (h : ctx.rawMetrics.tempFilesMb = 0) :
    evaluateSeverity tmplDiskSort ctx = Severity.medium ∨
      evaluateSeverity tmplDiskSort ctx = Severity.high := by
  rw [evaluateSeverity_diskSort, h,
    if_neg (show ¬((0 : ℝ) > 50) by norm_num),
    if_neg (show ¬((0 : ℝ) > 10) by norm_num)]
  by_cases hs : ctx.impactSaturation > 0.8
  · right
    rw [if_pos ⟨hs, rfl⟩]
  · left
    rw [if_neg (fun hh => hs hh.1)]

/-- Filtering the evaluated-template base list by type `DISK_SORT` leaves
exactly the `DISK_SORT` suggestion whenever disk sort was detected. -/
theorem base_filter_diskSort (ctx : ExplanationContext) (flags : StructuralFlags)
    (plan : String) (hds : ctx.rawMetrics.hasDiskSort = true) :
    ((getTemplates.filterMap fun t =>
        if isTemplateRelevant t ctx flags plan then some (mkSuggestion ctx plan t)
        else none).filter fun s => s.type = "DISK_SORT") =
      [mkSuggestion ctx plan tmplDiskSort] := by
  rw [List.filter_filterMap]
  have hother : ∀ t : Template, t.id ≠ "DISK_SORT" →
      ((if isTemplateRelevant t ctx flags plan then some (mkSuggestion ctx plan t)
        else none).filter fun s => s.type = "DISK_SORT") = none := by
    intro t ht
    by_cases hrel : isTemplateRelevant t ctx flags plan
    · rw [if_pos hrel]
      simp [Option.filter, mkSuggestion_type, ht]
    · rw [if_neg hrel]
      rfl
  have hpos : ((if isTemplateRelevant tmplDiskSort ctx flags plan then
      some (mkSuggestion ctx plan tmplDiskSort) else none).filter
        fun s => s.type = "DISK_SORT") = some (mkSuggestion ctx plan tmplDiskSort) := by
    rw [if_pos (show isTemplateRelevant tmplDiskSort ctx flags plan from Or.inl hds)]
    simp only [Option.filter, mkSuggestion_type]
    rw [if_pos (by decide : decide (tmplDiskSort.id = "DISK_SORT") = true)]
  rw [getTemplates]
  simp only [List.filterMap_cons, List.filterMap_nil,
    hother tmplRecursiveBomb (by decide), hother tmplPoorFiltering (by decide),
    hother tmplNPlusOne (by decide), hother tmplHighCpu (by decide),
    hother tmplInefficientIndex (by decide), hother tmplInefficientJoin (by decide),
    hother tmplCartesian (by decide), hother tmplHighWaste (by decide),
    hother tmplHighComplexity (by decide), hother tmplMissingIndex (by decide), hpos]

/-- Sorting preserves the type-`DISK_SORT` sublist up to permutation, and a
permutation of a singleton is that singleton. -/
theorem evaluated_filter_diskSort (ctx : ExplanationContext) (flags : StructuralFlags)
    (plan : String) (hds : ctx.rawMetrics.hasDiskSort = true) :
    (evaluateTemplates ctx flags plan).filter (fun s => s.type = "DISK_SORT") =
      [mkSuggestion ctx plan tmplDiskSort] := by
  unfold evaluateTemplates sortSuggestionsBySeverity
  have hperm := (List.perm_insertionSort sugLE (getTemplates.filterMap fun t =>
    if isTemplateRelevant t ctx flags plan then some (mkSuggestion ctx plan t)
    else none)).filter (fun s => decide (s.type = "DISK_SORT"))
  rw [base_filter_diskSort ctx flags plan hds] at hperm
  exact List.perm_singleton.mp hperm

/-- Embedding of `filterByKind` keeps a non-info, non-opportunistic singleton. -/
theorem filterByKind_filter_diskSort (l : List EvaluatedSuggestion) (sat : ℝ)
    (s : EvaluatedSuggestion)
    (hf : l.filter (fun x => x.type = "DISK_SORT") = [s])
    (hsev : s.severity ≠ Severity.info) (hk : s.kind ≠ SuggestionKind.opportunistic) :
    (filterByKind l sat).filter (fun x => x.type = "DISK_SORT") = [s] := by
  unfold filterByKind
  by_cases hsat : sat > 0.7
  · rw [if_pos hsat, List.filter_filter,
      List.filter_congr (fun a _ => Bool.and_comm _ _), ← List.filter_filter, hf,
      List.filter_cons]
    rw [if_pos (by simp [hsev, hk])]
    rfl
  · rw [if_neg hsat]
    exact hf

/-- Collapse keeps a per-type singleton unchanged. -/
theorem collapse_filter_singleton (l : List EvaluatedSuggestion) (tid : String)
    (s : EvaluatedSuggestion) (hf : l.filter (fun x => x.type = tid) = [s]) :
    (collapseSuggestions l).filter (fun x => x.type = tid) = [s] := by
  unfold collapseSuggestions
  rw [values_filter_of_inv _ (mapInv_foldl l [] ⟨by simp, by simp⟩) tid,
    mapGet_foldl l [] tid, hf]
  rfl

/-- The explanation phase maps one-to-one, preserving `type` and `severity`. -/
theorem mem_buildExplanations (E : ExplainerReg) (l : List EvaluatedSuggestion)
    (ctx : ExplanationContext) (s : EvaluatedSuggestion) (hs : s ∈ l) :
    ∃ es ∈ buildExplanations E l ctx, es.type = s.type ∧ es.severity = s.severity := by
  unfold buildExplanations
  exact ⟨_, List.mem_map_of_mem _ hs, rfl, rfl⟩

/-- Whenever extraction reports a disk sort (and its stubbed
`tempFilesMb = 0`), the final output of the suggestion pipeline contains the
`DISK_SORT` suggestion, and its severity is not `critical`. -/
theorem diskSort_suggestion_present (E : ExplainerReg) (ctx : ExplanationContext)
    (flags : StructuralFlags) (plan : String)
    (hds : ctx.rawMetrics.hasDiskSort = true)
    (htmp : ctx.rawMetrics.tempFilesMb = 0) :
    ∃ es ∈ generateSmartSuggestions E ctx flags plan,
      es.type = "DISK_SORT" ∧ es.severity ≠ Severity.critical := by
  have hsev := diskSort_severity_of_zero ctx htmp
  have hsevne : (mkSuggestion ctx plan tmplDiskSort).severity ≠ Severity.info := by
    rw [mkSuggestion_severity]
    rcases hsev with h | h <;> rw [h] <;> decide
  have hsevnc : (mkSuggestion ctx plan tmplDiskSort).severity ≠ Severity.critical := by
    rw [mkSuggestion_severity]
    rcases hsev with h | h <;> rw [h] <;> decide
  have hkind : (mkSuggestion ctx plan tmplDiskSort).kind ≠ SuggestionKind.opportunistic := by
    rw [mkSuggestion_kind]
    decide
  have h1 := evaluated_filter_diskSort ctx flags plan hds
  have h2 := filterByKind_filter_diskSort (evaluateTemplates ctx flags plan)
    ctx.impactSaturation _ h1 hsevne hkind
  have h3 := collapse_filter_singleton _ _ _ h2
  have hmem : mkSuggestion ctx plan tmplDiskSort ∈
      collapseSuggestions (filterByKind (evaluateTemplates ctx flags plan)
        ctx.impactSaturation) := by
    have hmf : mkSuggestion ctx plan tmplDiskSort ∈
        (collapseSuggestions (filterByKind (evaluateTemplates ctx flags plan)
          ctx.impactSaturation)).filter fun x => x.type = "DISK_SORT" := by
      rw [h3]
      exact List.mem_singleton_self _
    exact List.mem_of_mem_filter hmf
  have hne1 : evaluateTemplates ctx flags plan ≠ [] := by
    intro h0
    rw [h0] at h1
    simp at h1
  have hne2 : filterByKind (evaluateTemplates ctx flags plan) ctx.impactSaturation ≠ [] := by
    intro h0
    rw [h0] at h2
    simp at h2
  show ∃ es ∈ (if (evaluateTemplates ctx flags plan).isEmpty then []
    else if (filterByKind (evaluateTemplates ctx flags plan)
        ctx.impactSaturation).isEmpty then []
    else buildExplanations E (collapseSuggestions (filterByKind
      (evaluateTemplates ctx flags plan) ctx.impactSaturation)) ctx),
    es.type = "DISK_SORT" ∧ es.severity ≠ Severity.critical
  rw [if_neg (by simp [hne1]), if_neg (by simp [hne2])]
  rcases mem_buildExplanations E _ ctx _ hmem with ⟨es, hesm, hty, hsv⟩
  refine ⟨es, hesm, ?_, ?_⟩
  · rw [hty, mkSuggestion_type]
    rfl
  · rw [hsv]
    exact hsevnc

/-- With a detected disk sort, the `mem` leaf of the built (and resolved)
tree is hard-set to 1. -/
theorem mem_leaf_of_diskSort (m : RawMetrics) (f : StructuralFlags)
    (h : m.hasDiskSort = true) :
    (findNodeRecursive (buildEcoSQLTree m f) "mem").map ImpactNode.value = some 1 := by
  have hfind : findNodeRecursive (buildEcoSQLTree m f) "mem" =
      some (.mk "mem" "Memory Pressure"
        (if m.hasDiskSort then 1 else logNormalize (m.batches : ℝ) 128) 0.3 []
        m.hasDiskSort "...") := rfl
  rw [hfind]
  show some (if m.hasDiskSort = true then (1 : ℝ) else logNormalize (m.batches : ℝ) 128) =
    some 1
  rw [h, if_pos rfl]

/-- C4 (the disk-sort scenario): the plan text with `Batches: 256` and
`Sort Method: external merge Disk: 54240kB` yields `hasDiskSort = true` and a
`mem` leaf of 1.0, and the `DISK_SORT` (work_mem) suggestion is present in
the pipeline output — but its severity can never be `critical`, because
`extractAllMetrics` stubs `tempFilesMb` to 0 (the 54240kB figure is never
parsed), so the `tempFilesMb > 50` escalation cannot fire. -/
theorem c4_disk_sort_scenario :
    (extractAllMetrics planC4).hasDiskSort = true ∧
    (extractAllMetrics planC4).tempFilesMb = 0 ∧
    (∀ f : StructuralFlags,
        (findNodeRecursive (buildEcoSQLTree (extractAllMetrics planC4) f) "mem").map
          ImpactNode.value = some 1) ∧
    (∀ (tree : ImpactNode) (sat : ℝ) (dn : List ImpactNode) (plan2 : String),
        evaluateSeverity tmplDiskSort ⟨tree, sat, dn, extractAllMetrics planC4, plan2⟩ ≠
          Severity.critical) ∧
    (∀ (E : ExplainerReg) (tree : ImpactNode) (sat : ℝ) (dn : List ImpactNode)
        (plan2 plan3 : String) (flags : StructuralFlags),
        ∃ es ∈ generateSmartSuggestions E ⟨tree, sat, dn, extractAllMetrics planC4, plan2⟩
          flags plan3, es.type = "DISK_SORT" ∧ es.severity ≠ Severity.critical) := by
  have hds : (extractAllMetrics planC4).hasDiskSort = true := by decide
  have htmp : (extractAllMetrics planC4).tempFilesMb = 0 := rfl
  refine ⟨hds, htmp, fun f => mem_leaf_of_diskSort _ f hds, ?_, ?_⟩
  · intro tree sat dn plan2
    have hcase := diskSort_severity_of_zero ⟨tree, sat, dn, extractAllMetrics planC4, plan2⟩
      htmp
    rcases hcase with h | h <;> rw [h] <;> decide
  · intro E tree sat dn plan2 plan3 flags
    exact diskSort_suggestion_present E ⟨tree, sat, dn, extractAllMetrics planC4, plan2⟩
      flags plan3 hds htmp

/-- Severity of `CARTESIAN_PRODUCT` reduces to the row-count branch and the
saturation booster. -/
theorem evaluateSeverity_cartesian (ctx : ExplanationContext) :
    evaluateSeverity tmplCartesian ctx =
      (if ctx.impactSaturation > 0.8 ∧
          (if ctx.rawMetrics.actualRows < 100 then Severity.medium
           else Severity.critical) = Severity.medium then Severity.high
       else (if ctx.rawMetrics.actualRows < 100 then Severity.medium
             else Severity.critical)) := rfl

/-- C8: a single throwing explainer aborts the whole suggestion phase.  With
metrics that make both `DISK_SORT` and `CARTESIAN_PRODUCT` relevant and a
registry whose `DISK_SORT` explainer throws, `generateSmartSuggestions`
propagates the exception (there is no `try`/`catch` around the explainer
calls), so not even the healthy `CARTESIAN_PRODUCT` rule's suggestion is
produced. -/
theorem c8_throwing_explainer_aborts :
    generateSmartSuggestionsFallible c8registry c8ctx {} "p" = .error "boom" := by
  have eRB : (if isTemplateRelevant tmplRecursiveBomb c8ctx {} "p" then
      some (mkSuggestion c8ctx "p" tmplRecursiveBomb) else none) = none := by
    apply if_neg
    show ¬((0 : ℕ) > 0 ∧ (false = true ∨ (0 : ℕ) > 1000))
    decide
  have ePF : (if isTemplateRelevant tmplPoorFiltering c8ctx {} "p" then
      some (mkSuggestion c8ctx "p" tmplPoorFiltering) else none) = none := by
    apply if_neg
    exact not_false
  have eNP : (if isTemplateRelevant tmplNPlusOne c8ctx {} "p" then
      some (mkSuggestion c8ctx "p" tmplNPlusOne) else none) = none := by
    apply if_neg
    exact not_false
  have eHC : (if isTemplateRelevant tmplHighCpu c8ctx {} "p" then
      some (mkSuggestion c8ctx "p" tmplHighCpu) else none) = none := by
    apply if_neg
    exact not_false
  have eII : (if isTemplateRelevant tmplInefficientIndex c8ctx {} "p" then
      some (mkSuggestion c8ctx "p" tmplInefficientIndex) else none) = none := by
    apply if_neg
    exact not_false
  have eIJ : (if isTemplateRelevant tmplInefficientJoin c8ctx {} "p" then
      some (mkSuggestion c8ctx "p" tmplInefficientJoin) else none) = none := by
    apply if_neg
    exact not_false
  have eDS : (if isTemplateRelevant tmplDiskSort c8ctx {} "p" then
      some (mkSuggestion c8ctx "p" tmplDiskSort) else none) =
      some (mkSuggestion c8ctx "p" tmplDiskSort) := by
    apply if_pos
    exact Or.inl rfl
  have eCP : (if isTemplateRelevant tmplCartesian c8ctx {} "p" then
      some (mkSuggestion c8ctx "p" tmplCartesian) else none) =
      some (mkSuggestion c8ctx "p" tmplCartesian) := by
    apply if_pos
    exact rfl
  have eHW : (if isTemplateRelevant tmplHighWaste c8ctx {} "p" then
      some (mkSuggestion c8ctx "p" tmplHighWaste) else none) = none := by
    apply if_neg
    show ¬(if (0 : ℝ) > 0.9 then True else ((0 : ℝ) > 0.8 ∧ (0 : ℕ) > 1000))
    rw [if_neg (by norm_num : ¬((0 : ℝ) > 0.9))]
    norm_num
  have eHSC : (if isTemplateRelevant tmplHighComplexity c8ctx {} "p" then
      some (mkSuggestion c8ctx "p" tmplHighComplexity) else none) = none := by
    apply if_neg
    exact not_false
  have eMI : (if isTemplateRelevant tmplMissingIndex c8ctx {} "p" then
      some (mkSuggestion c8ctx "p" tmplMissingIndex) else none) = none := by
    apply if_neg
    exact not_false
  have hbase : (getTemplates.filterMap fun t =>
      if isTemplateRelevant t c8ctx {} "p" then some (mkSuggestion c8ctx "p" t)
      else none) =
      [mkSuggestion c8ctx "p" tmplDiskSort, mkSuggestion c8ctx "p" tmplCartesian] := by
    rw [getTemplates]
    simp only [List.filterMap_cons, eRB, ePF, eNP, eHC, eII, eIJ, eDS, eCP, eHW, eHSC, eMI,
      List.filterMap_nil]
  have hsevDS : evaluateSeverity tmplDiskSort c8ctx = Severity.medium := by
    rw [evaluateSeverity_diskSort,
      show c8ctx.rawMetrics.tempFilesMb = (0 : ℝ) from rfl,
      if_neg (show ¬((0 : ℝ) > 50) by norm_num),
      if_neg (show ¬((0 : ℝ) > 10) by norm_num),
      if_neg (fun hh => absurd hh.1 (show ¬(c8ctx.impactSaturation > 0.8) from by
        rw [show c8ctx.impactSaturation = (0 : ℝ) from rfl]
        norm_num))]
  have hsevCP : evaluateSeverity tmplCartesian c8ctx = Severity.medium := by
    rw [evaluateSeverity_cartesian,
      show c8ctx.rawMetrics.actualRows = 0 from rfl,
      if_pos (show (0 : ℕ) < 100 by norm_num),
      if_neg (fun hh => absurd hh.1 (show ¬(c8ctx.impactSaturation > 0.8) from by
        rw [show c8ctx.impactSaturation = (0 : ℝ) from rfl]
        norm_num))]
  have hle : sugLE (mkSuggestion c8ctx "p" tmplDiskSort) (mkSuggestion c8ctx "p" tmplCartesian) := by
    refine Or.inr ⟨?_, ?_⟩
    · rw [mkSuggestion_severity, mkSuggestion_severity, hsevDS, hsevCP]
    · exact le_refl (0 : ℝ)
  have hlist : evaluateTemplates c8ctx {} "p" =
      [mkSuggestion c8ctx "p" tmplDiskSort, mkSuggestion c8ctx "p" tmplCartesian] := by
    unfold evaluateTemplates sortSuggestionsBySeverity
    rw [hbase]
    show List.orderedInsert sugLE (mkSuggestion c8ctx "p" tmplDiskSort)
      (List.insertionSort sugLE [mkSuggestion c8ctx "p" tmplCartesian]) = _
    rw [show List.insertionSort sugLE [mkSuggestion c8ctx "p" tmplCartesian] =
        [mkSuggestion c8ctx "p" tmplCartesian] from rfl]
    show (if sugLE (mkSuggestion c8ctx "p" tmplDiskSort) (mkSuggestion c8ctx "p" tmplCartesian)
        then _ else _) = _
    rw [if_pos hle]
  show (if (evaluateTemplates c8ctx {} "p").isEmpty then Except.ok []
    else if (filterByKind (evaluateTemplates c8ctx {} "p") c8ctx.impactSaturation).isEmpty
      then Except.ok []
    else buildExplanationsFallible c8registry
      (collapseSuggestions (filterByKind (evaluateTemplates c8ctx {} "p")
        c8ctx.impactSaturation)) c8ctx) = .error "boom"
  rw [hlist]
  have hfk : filterByKind
      [mkSuggestion c8ctx "p" tmplDiskSort, mkSuggestion c8ctx "p" tmplCartesian]
      c8ctx.impactSaturation =
      [mkSuggestion c8ctx "p" tmplDiskSort, mkSuggestion c8ctx "p" tmplCartesian] := by
    unfold filterByKind
    rw [if_neg (show ¬(c8ctx.impactSaturation > 0.7) from by
      rw [show c8ctx.impactSaturation = (0 : ℝ) from rfl]
      norm_num)]
  rw [hfk]
  rw [if_neg (by simp), if_neg (by simp)]
  rfl

/-- Witness for C9 at a concrete leaf. -/
theorem c9_resolve_idempotent_witness :
    resolveT (resolveT (leafNode "a" 0 1)) = resolveT (leafNode "a" 0 1) ∧
      resolveVal (resolveT (leafNode "a" 0 1)) = resolveVal (leafNode "a" 0 1) :=
  c9_resolve_idempotent (leafNode "a" 0 1)

/-- Witness for C6 at a concrete plan text. -/
theorem c6_waste_ratio_bounds_witness :
    0 ≤ (extractAllMetrics planC5b).wasteRatioVal ∧
      (extractAllMetrics planC5b).wasteRatioVal ≤ 1 :=
  (c6_waste_ratio_bounds planC5b).2

/-- Witness for C4 at a concrete context: the `DISK_SORT` severity computed
from the scenario plan is not `critical`. -/
theorem c4_disk_sort_scenario_witness :
    evaluateSeverity tmplDiskSort
      ⟨leafNode "t" 0 1, 0, [], extractAllMetrics planC4, "q"⟩ ≠ Severity.critical :=
  c4_disk_sort_scenario.2.2.2.1 (leafNode "t" 0 1) 0 [] "q"
